import Mathlib

/-!
Shallow embedding of the Coraza Envoy Go filter's per-request state machine
(src/internal/filter/filter.go and src/internal/filter/connection_type.go).

The rule engine (a Coraza Transaction) is an outside collaborator; it is
modelled as an oracle (Engine) whose answer to each operation is a
parameter, indexed by how many times that operation was already invoked.
Every Transaction operation the filter performs is recorded in a trace of
EngineCall values, every SendLocalReply in a list of LocalReplySent
values, and every log statement in a list of LogEvent values, so that the
spec's counting and ordering claims become statements about those lists.
-/

/-- HTTP status directives the Envoy Go filter API lets a handler return. -/
inductive StatusType where
  | cont
  | stopAndBuffer
  | stopAndBufferWatermark
  | localReply
deriving DecidableEq, Repr

/-- Direction of a SendLocalReply: decoder (request path) or encoder (response path). -/
inductive Direction where
  | decoder
  | encoder
deriving DecidableEq, Repr

/-- Log levels of the Envoy callback logger. -/
inductive LogLevel where
  | trace
  | debug
  | info
  | warn
  | error
  | critical
deriving DecidableEq, Repr

/-- The phase enum of connection_type.go. -/
inductive Phase where
  | unknown
  | requestHeader
  | requestBody
  | responseHeader
  | responseBody
deriving DecidableEq, Repr

/-- The connectionState enum of connection_type.go. -/
inductive ConnectionState where
  | http
  | upgradeWebsocketRequested
  | websocketConnection
deriving DecidableEq, Repr

/-- connectionState.IsHttp from connection_type.go. -/
def ConnectionState.isHttp : ConnectionState → Bool
  | .http => true
  | _ => false

/-- connectionState.IsWebsocket from connection_type.go. -/
def ConnectionState.isWebsocket : ConnectionState → Bool
  | .websocketConnection => true
  | _ => false

/-- connectionState.IsWebsocketUpgradeRequested from connection_type.go. -/
def ConnectionState.isWebsocketUpgradeRequested : ConnectionState → Bool
  | .upgradeWebsocketRequested => true
  | _ => false

/-- types.Interruption of the Coraza engine: rule id, action and HTTP status. -/
structure Interruption where
  ruleID : Int
  action : String
  status : Int
deriving DecidableEq, Repr

/-- One recorded call into the Transaction collaborator. -/
inductive EngineCall where
  | newTransaction (id : String)
  | addRequestHeader (k v : String)
  | setServerName (s : String)
  | processConnection (srcIP : String) (srcPort : Int) (dstIP : String) (dstPort : Int)
  | processURI (path method protocol : String)
  | processRequestHeaders
  | writeRequestBody (data : List Nat)
  | processRequestBody
  | addResponseHeader (k v : String)
  | processResponseHeaders (code : Int) (protocol : String)
  | writeResponseBody (data : List Nat)
  | processResponseBody
  | processLogging
  | close
deriving DecidableEq, Repr

/-- One recorded SendLocalReply call. -/
structure LocalReplySent where
  direction : Direction
  status : Int
  body : String
  details : String
deriving DecidableEq, Repr

/-- Recorded log events. The interruption log keeps the structured fields the
spec talks about; other log statements are recorded by level only. -/
inductive LogEvent where
  | interrupted (p : Phase) (ruleID : Int) (action : String) (status : Int)
  | message (level : LogLevel)
deriving DecidableEq, Repr

/-- Level at which a log event is emitted: the interruption log is Info level. -/
def LogEvent.levelOf : LogEvent → LogLevel
  | .interrupted _ _ _ _ => .info
  | .message l => l

/-- The mutable fields of the Go Filter struct. The Transaction handle itself
lives in the oracle, so only its nil-ness is tracked here. -/
structure FilterState where
  txInitialized : Bool
  wasInterrupted : Bool
  wasRequestBodyProcessed : Bool
  wasResponseBodyProcessed : Bool
  wasResponseBodyProcessedWithNoBody : Bool
  httpProtocol : String
  connection : ConnectionState
deriving DecidableEq, Repr

/-- Filter state at construction: zero values of the Go struct fields. -/
def initialFilterState : FilterState :=
  { txInitialized := false
    wasInterrupted := false
    wasRequestBodyProcessed := false
    wasResponseBodyProcessed := false
    wasResponseBodyProcessedWithNoBody := false
    httpProtocol := ""
    connection := ConnectionState.http }

/-- Oracle for the Transaction collaborator. Boolean results model
IsRuleEngineOff / Is*BodyAccessible (constant per transaction); the response
of each fallible operation is a function of how many calls of that same
operation already happened. The Bool in each response tuple is whether the
operation returned a Go error. -/
structure Engine where
  ruleEngineOff : Bool
  requestBodyAccessible : Bool
  responseBodyAccessible : Bool
  onProcessRequestHeaders : Option Interruption
  onWriteRequestBody : Nat → List Nat → Option Interruption × Nat × Bool
  onProcessRequestBody : Nat → Option Interruption × Bool
  onProcessResponseHeaders : Option Interruption
  onWriteResponseBody : Nat → List Nat → Option Interruption × Nat × Bool
  onProcessResponseBody : Nat → Option Interruption × Bool

/-- The request header map surface the filter uses (api.RequestHeaderMap). -/
structure RequestHeaderMap where
  host : String
  path : String
  method : String
  xRequestId : Option String
  entries : List (String × String)

/-- The stream info surface the filter uses (api.StreamInfo). -/
structure StreamInfo where
  downstreamRemoteAddress : String
  downstreamLocalAddress : String
  protocol : Option String
  responseCode : Option Int

/-- Result of one handler invocation: returned status, updated filter state,
engine calls made, local replies sent and log events emitted, in order. -/
structure StepResult where
  status : StatusType
  state : FilterState
  calls : List EngineCall
  replies : List LocalReplySent
  logs : List LogEvent

/-- Result of an EncodeData invocation: additionally the final contents of the
Envoy buffer (EncodeData may overwrite it via buffer.Set). -/
structure DataStepResult where
  status : StatusType
  state : FilterState
  calls : List EngineCall
  replies : List LocalReplySent
  logs : List LogEvent
  buffer : List Nat

/-- Whether the first list starts the second, on characters. -/
def startsWithL : List Char → List Char → Bool
  | [], _ => true
  | _ :: _, [] => false
  | p :: ps, c :: cs => p == c && startsWithL ps cs

/-- Whether the pattern occurs somewhere in the list. -/
def hasSubList (pat : List Char) : List Char → Bool
  | [] => startsWithL pat []
  | c :: cs => startsWithL pat (c :: cs) || hasSubList pat cs

/-- Substring test matching Go strings.Contains. -/
def containsSub (s pat : String) : Bool :=
  hasSubList pat.data s.data

/-- ASCII lower-casing of a character, as Go strings.ToLower does on the
ASCII header values this filter inspects. -/
def lowerChar (c : Char) : Char :=
  if c.toNat ≥ 65 ∧ c.toNat ≤ 90 then Char.ofNat (c.toNat + 32) else c

/-- Model of Go strings.ToLower restricted to ASCII input. -/
def lowerStr (s : String) : String :=
  String.mk (s.data.map lowerChar)

/-- Index of the last occurrence of a character, matching Go last(s, b). -/
def lastIdxOf (c : Char) (l : List Char) : Option Nat :=
  match l.reverse.findIdx? (fun x => x == c) with
  | none => none
  | some j => some (l.length - 1 - j)

/-- Model of Go net.SplitHostPort: returns (host, port) on success, none on
any of its error cases (missing port, too many colons, bracket errors). -/
def goSplitHostPort (s : String) : Option (String × String) :=
  let cs := s.data
  match lastIdxOf ':' cs with
  | none => none
  | some i =>
    if cs.head? = some '[' then
      match cs.findIdx? (fun x => x == ']') with
      | none => none
      | some endIdx =>
        if endIdx + 1 == cs.length then none
        else if endIdx + 1 == i then
          if (cs.drop 1).contains '[' then none
          else if (cs.drop (endIdx + 1)).contains ']' then none
          else some (String.mk ((cs.drop 1).take (endIdx - 1)), String.mk (cs.drop (i + 1)))
        else none
    else
      let hostPart := cs.take i
      if hostPart.contains ':' then none
      else if cs.contains '[' then none
      else if cs.contains ']' then none
      else some (String.mk hostPart, String.mk (cs.drop (i + 1)))

/-- Model of Go strconv.Atoi on inputs of port size: optional sign followed by
at least one digit; anything else is an error. -/
def goAtoi (s : String) : Option Int :=
  let step : Int × List Char → Option Int := fun sd =>
    if sd.2 = [] then none
    else if sd.2.all Char.isDigit then
      some (sd.1 * (Int.ofNat (sd.2.foldl (fun a c => a * 10 + (c.toNat - 48)) 0)))
    else none
  match s.data with
  | '+' :: r => step (1, r)
  | '-' :: r => step (-1, r)
  | r => step (1, r)

/-- Count of trace entries matching a classifier. -/
def countIf (p : EngineCall → Bool) (t : List EngineCall) : Nat :=
  (t.filter p).length

/-- Classifier for ProcessRequestHeaders calls. -/
def isProcReqHeaders : EngineCall → Bool
  | .processRequestHeaders => true
  | _ => false

/-- Classifier for ProcessRequestBody calls. -/
def isProcReqBody : EngineCall → Bool
  | .processRequestBody => true
  | _ => false

/-- Classifier for ProcessResponseHeaders calls. -/
def isProcRespHeaders : EngineCall → Bool
  | .processResponseHeaders _ _ => true
  | _ => false

/-- Classifier for ProcessResponseBody calls. -/
def isProcRespBody : EngineCall → Bool
  | .processResponseBody => true
  | _ => false

/-- Classifier for WriteRequestBody calls. -/
def isWriteReqBody : EngineCall → Bool
  | .writeRequestBody _ => true
  | _ => false

/-- Classifier for WriteResponseBody calls. -/
def isWriteRespBody : EngineCall → Bool
  | .writeResponseBody _ => true
  | _ => false

/-- Result of Filter.handleInterruption: updated state, replies sent, logs. -/
structure InterruptResult where
  state : FilterState
  replies : List LocalReplySent
  logs : List LogEvent

/-- Filter.handleInterruption: set wasInterrupted, log the structured Info
message, send the reply on the phase-appropriate direction with the
interruption's status and an empty body. -/
def handleInterruption (f : FilterState) (p : Phase) (i : Interruption) : InterruptResult :=
  let f1 := { f with wasInterrupted := true }
  let logs := [LogEvent.interrupted p i.ruleID i.action i.status]
  let replies :=
    match p with
    | .requestHeader => [LocalReplySent.mk Direction.decoder i.status ("") ("")]
    | .requestBody => [LocalReplySent.mk Direction.decoder i.status ("") ("")]
    | .responseHeader => [LocalReplySent.mk Direction.encoder i.status ("") ("")]
    | .responseBody => [LocalReplySent.mk Direction.encoder i.status ("") ("")]
    | .unknown => []
  InterruptResult.mk f1 replies logs

/-- Result of the validate/deferred helpers: ok is false when the Go code
returned an error to its caller. -/
structure ValidateResult where
  ok : Bool
  state : FilterState
  calls : List EngineCall
  replies : List LocalReplySent
  logs : List LogEvent

/-- Filter.validateRequestBody: call ProcessRequestBody; an engine error sends
a decoder 500 reply; an interruption is dispatched for the RequestBody phase. -/
def validateRequestBody (eng : Engine) (f : FilterState) (prior : List EngineCall) : ValidateResult :=
  let idx := countIf isProcReqBody prior
  let calls := [EngineCall.processRequestBody]
  match eng.onProcessRequestBody idx with
  | (_, true) =>
    ValidateResult.mk false f calls [LocalReplySent.mk Direction.decoder 500 ("") ("")] []
  | (some i, false) =>
    let r := handleInterruption f Phase.requestBody i
    ValidateResult.mk false r.state calls r.replies r.logs
  | (none, false) => ValidateResult.mk true f calls [] []

/-- Filter.validateResponseBody: call ProcessResponseBody; an engine error
sends an encoder 500 reply; an interruption is dispatched for ResponseBody. -/
def validateResponseBody (eng : Engine) (f : FilterState) (prior : List EngineCall) : ValidateResult :=
  let idx := countIf isProcRespBody prior
  let calls := [EngineCall.processResponseBody]
  match eng.onProcessResponseBody idx with
  | (_, true) =>
    ValidateResult.mk false f calls [LocalReplySent.mk Direction.encoder 500 ("") ("")] []
  | (some i, false) =>
    let r := handleInterruption f Phase.responseBody i
    ValidateResult.mk false r.state calls r.replies r.logs
  | (none, false) => ValidateResult.mk true f calls [] []

/-- The transaction setup of DecodeHeaders: create it with the x-request-id, add the
Host header, split host:port when a separator is present (403 reply on
failure) and set the server name. -/
def initTx (f : FilterState) (headerMap : RequestHeaderMap) (host : String) : ValidateResult :=
  let logs0 : List LogEvent :=
    match headerMap.xRequestId with
    | none => [LogEvent.message LogLevel.error]
    | some _ => []
  let xReqId := headerMap.xRequestId.getD ("")
  let f1 := { f with txInitialized := true }
  let calls := [EngineCall.newTransaction xReqId, EngineCall.addRequestHeader ("Host") host]
  if containsSub host (":") then
    match goSplitHostPort host with
    | none =>
      ValidateResult.mk false f1 calls [LocalReplySent.mk Direction.decoder 403 ("") ("")] logs0
    | some (server, _) =>
      ValidateResult.mk true f1 (calls ++ [EngineCall.setServerName server]) [] logs0
  else
    ValidateResult.mk true f1 (calls ++ [EngineCall.setServerName host]) [] logs0

/-- Filter.splitHostPort: net.SplitHostPort then strconv.Atoi, sending a
decoder 400 reply on either failure. -/
def splitHostPortF (s : String) : Option (String × Int) × List LocalReplySent :=
  match goSplitHostPort s with
  | none => (none, [LocalReplySent.mk Direction.decoder 400 ("") ("")])
  | some (ip, portStr) =>
    match goAtoi portStr with
    | none => (none, [LocalReplySent.mk Direction.decoder 400 ("") ("")])
    | some p => (some (ip, p), [])

/-- The header Range of DecodeHeaders: detect the websocket upgrade pair and
add every request header to the transaction. The Go loop accumulates the two
booleans with or and appends one AddRequestHeader per entry, which is the
triple computed here. -/
def scanRequestHeaders (entries : List (String × String)) : Bool × Bool × List EngineCall :=
  (entries.foldl
      (fun u kv => u || (kv.1 == ("upgrade") && containsSub (lowerStr kv.2) ("websocket")))
      false,
    entries.foldl
      (fun c kv => c || (kv.1 == ("connection") && containsSub (lowerStr kv.2) ("upgrade")))
      false,
    entries.map (fun kv => EngineCall.addRequestHeader kv.1 kv.2))

/-- Filter.DecodeHeaders. -/
def decodeHeaders (eng : Engine) (f0 : FilterState) (prior : List EngineCall)
    (headerMap : RequestHeaderMap) (info : StreamInfo) (endStream : Bool) : StepResult :=
  let f := { f0 with connection := ConnectionState.http }
  if headerMap.host.length == 0 then
    StepResult.mk StatusType.localReply f []
      [LocalReplySent.mk Direction.decoder 403 ("") ("")] []
  else
    let ir := initTx f headerMap headerMap.host
    if ir.ok = false then
      StepResult.mk StatusType.localReply ir.state ir.calls ir.replies
        (ir.logs ++ [LogEvent.message LogLevel.error])
    else if eng.ruleEngineOff then
      StepResult.mk StatusType.cont ir.state ir.calls ir.replies ir.logs
    else
      match splitHostPortF info.downstreamRemoteAddress with
      | (none, reps) =>
        StepResult.mk StatusType.localReply ir.state ir.calls (ir.replies ++ reps)
          (ir.logs ++ [LogEvent.message LogLevel.error])
      | (some (srcIP, srcPort), _) =>
        match splitHostPortF info.downstreamLocalAddress with
        | (none, reps) =>
          StepResult.mk StatusType.localReply ir.state ir.calls (ir.replies ++ reps)
            (ir.logs ++ [LogEvent.message LogLevel.error])
        | (some (dstIP, dstPort), _) =>
          let calls1 := ir.calls ++ [EngineCall.processConnection srcIP srcPort dstIP dstPort]
          let protoPair : String × List LogEvent :=
            match info.protocol with
            | some p => (p, [])
            | none => ("HTTP/2.0", [LogEvent.message LogLevel.warn])
          let f1 := { ir.state with httpProtocol := protoPair.1 }
          let calls2 := calls1 ++ [EngineCall.processURI headerMap.path headerMap.method protoPair.1]
          let scan := scanRequestHeaders headerMap.entries
          let calls3 := calls2 ++ scan.2.2
          let upPair : FilterState × List LogEvent :=
            if scan.1 && scan.2.1 then
              ({ f1 with connection := ConnectionState.upgradeWebsocketRequested },
                [LogEvent.message LogLevel.debug])
            else (f1, [])
          let f2 := upPair.1
          let logsHead := ir.logs ++ protoPair.2 ++ upPair.2
          let calls4 := calls3 ++ [EngineCall.processRequestHeaders]
          match eng.onProcessRequestHeaders with
          | some i =>
            let hr := handleInterruption f2 Phase.requestHeader i
            StepResult.mk StatusType.localReply hr.state calls4 hr.replies (logsHead ++ hr.logs)
          | none =>
            if endStream then
              let vr := validateRequestBody eng f2 (prior ++ calls4)
              if vr.ok then
                StepResult.mk StatusType.cont vr.state (calls4 ++ vr.calls) vr.replies
                  (logsHead ++ vr.logs)
              else
                StepResult.mk StatusType.localReply vr.state (calls4 ++ vr.calls) vr.replies
                  (logsHead ++ vr.logs ++ [LogEvent.message LogLevel.error])
            else
              StepResult.mk StatusType.stopAndBufferWatermark f2 calls4 [] logsHead

/-- Filter.DecodeData. -/
def decodeData (eng : Engine) (f : FilterState) (prior : List EngineCall)
    (buffer : List Nat) (endStream : Bool) : StepResult :=
  if f.wasInterrupted then
    StepResult.mk StatusType.localReply f []
      [LocalReplySent.mk Direction.decoder 403 ("") ("interruption-already-handled")] []
  else if eng.ruleEngineOff then
    StepResult.mk StatusType.cont f [] [] []
  else if !eng.requestBodyAccessible then
    let vr := validateRequestBody eng f prior
    if vr.ok then
      StepResult.mk StatusType.cont vr.state vr.calls vr.replies
        ([LogEvent.message LogLevel.debug] ++ vr.logs)
    else
      StepResult.mk StatusType.localReply vr.state vr.calls vr.replies
        ([LogEvent.message LogLevel.debug] ++ vr.logs ++ [LogEvent.message LogLevel.error])
  else if buffer.length > 0 then
    let idx := countIf isWriteReqBody prior
    let wcalls := [EngineCall.writeRequestBody buffer]
    let tl := [LogEvent.message LogLevel.trace, LogEvent.message LogLevel.trace]
    match eng.onWriteRequestBody idx buffer with
    | (_, _, true) =>
      StepResult.mk StatusType.localReply f wcalls
        [LocalReplySent.mk Direction.decoder 500 ("") ("")]
        (tl ++ [LogEvent.message LogLevel.error])
    | (some i, _, false) =>
      let hr := handleInterruption f Phase.requestBody i
      StepResult.mk StatusType.localReply hr.state wcalls hr.replies (tl ++ hr.logs)
    | (none, _, false) =>
      if endStream then
        let f1 := { f with wasRequestBodyProcessed := true }
        let vr := validateRequestBody eng f1 (prior ++ wcalls)
        if vr.ok then
          StepResult.mk StatusType.cont vr.state (wcalls ++ vr.calls) vr.replies (tl ++ vr.logs)
        else
          StepResult.mk StatusType.localReply vr.state (wcalls ++ vr.calls) vr.replies
            (tl ++ vr.logs ++ [LogEvent.message LogLevel.error])
      else if f.connection.isHttp then
        StepResult.mk StatusType.stopAndBuffer f wcalls []
          (tl ++ [LogEvent.message LogLevel.debug])
      else
        StepResult.mk StatusType.cont f wcalls [] tl
  else
    StepResult.mk StatusType.cont f [] []
      [LogEvent.message LogLevel.trace, LogEvent.message LogLevel.debug]

/-- The deferred phase-3 ProcessRequestBody at the top of EncodeHeaders: runs
only when the request body was never finalized; errors send an encoder 500
reply; an interruption is dispatched for the ResponseHeader phase. -/
def deferredReqBody (eng : Engine) (f : FilterState) (prior : List EngineCall) : ValidateResult :=
  if f.wasRequestBodyProcessed then ValidateResult.mk true f [] [] []
  else
    let f1 := { f with wasRequestBodyProcessed := true }
    let idx := countIf isProcReqBody prior
    let calls := [EngineCall.processRequestBody]
    match eng.onProcessRequestBody idx with
    | (_, true) =>
      ValidateResult.mk false f1 calls [LocalReplySent.mk Direction.encoder 500 ("") ("")]
        [LogEvent.message LogLevel.debug, LogEvent.message LogLevel.error]
    | (some i, false) =>
      let hr := handleInterruption f1 Phase.responseHeader i
      ValidateResult.mk false hr.state calls hr.replies
        ([LogEvent.message LogLevel.debug] ++ hr.logs)
    | (none, false) =>
      ValidateResult.mk true f1 calls [] [LogEvent.message LogLevel.debug]

/-- The header Range of EncodeHeaders: the upgrade pair is only looked for
when a websocket upgrade was requested on the request side. -/
def scanResponseHeaders (c : ConnectionState) (entries : List (String × String)) :
    Bool × Bool × List EngineCall :=
  (entries.foldl
      (fun u kv => u ||
        (c.isWebsocketUpgradeRequested && kv.1 == ("upgrade") &&
          containsSub (lowerStr kv.2) ("websocket")))
      false,
    entries.foldl
      (fun co kv => co ||
        (c.isWebsocketUpgradeRequested && kv.1 == ("connection") &&
          containsSub (lowerStr kv.2) ("upgrade")))
      false,
    entries.map (fun kv => EngineCall.addResponseHeader kv.1 kv.2))

/-- Filter.EncodeHeaders. -/
def encodeHeaders (eng : Engine) (f : FilterState) (prior : List EngineCall)
    (entries : List (String × String)) (info : StreamInfo) (endStream : Bool) : StepResult :=
  if f.wasInterrupted then
    StepResult.mk StatusType.cont f [] [] [LogEvent.message LogLevel.debug]
  else if !f.txInitialized || eng.ruleEngineOff then
    StepResult.mk StatusType.cont f [] [] []
  else
    let d := deferredReqBody eng f prior
    if d.ok = false then
      StepResult.mk StatusType.localReply d.state d.calls d.replies d.logs
    else
      let code := info.responseCode.getD 0
      let scan := scanResponseHeaders d.state.connection entries
      let upPair : FilterState × List LogEvent :=
        if scan.1 && scan.2.1 then
          ({ d.state with connection := ConnectionState.websocketConnection },
            [LogEvent.message LogLevel.debug])
        else (d.state, [])
      let f2 := upPair.1
      let calls1 := d.calls ++ scan.2.2 ++ [EngineCall.processResponseHeaders code f2.httpProtocol]
      let logsHead := d.logs ++ upPair.2
      match eng.onProcessResponseHeaders with
      | some i =>
        let hr := handleInterruption f2 Phase.responseHeader i
        StepResult.mk StatusType.localReply hr.state calls1 hr.replies (logsHead ++ hr.logs)
      | none =>
        if !endStream && eng.responseBodyAccessible && f2.connection.isHttp then
          StepResult.mk StatusType.stopAndBuffer f2 calls1 []
            (logsHead ++ [LogEvent.message LogLevel.debug])
        else if endStream then
          let vr := validateResponseBody eng f2 (prior ++ calls1)
          if vr.ok then
            StepResult.mk StatusType.cont vr.state (calls1 ++ vr.calls) vr.replies
              (logsHead ++ vr.logs)
          else
            StepResult.mk StatusType.localReply vr.state (calls1 ++ vr.calls) vr.replies
              (logsHead ++ vr.logs ++ [LogEvent.message LogLevel.error])
        else
          StepResult.mk StatusType.cont f2 calls1 [] logsHead

/-- Filter.EncodeData. The final buffer contents are part of the result, since
the end-of-stream error path overwrites the buffer with zero bytes. -/
def encodeData (eng : Engine) (f : FilterState) (prior : List EngineCall)
    (buffer : List Nat) (endStream : Bool) : DataStepResult :=
  if !f.txInitialized || eng.ruleEngineOff || f.connection.isWebsocket ||
      f.wasResponseBodyProcessedWithNoBody then
    DataStepResult.mk StatusType.cont f [] []
      (if f.connection.isWebsocket then [LogEvent.message LogLevel.debug] else []) buffer
  else if f.wasInterrupted then
    DataStepResult.mk StatusType.localReply f []
      [LocalReplySent.mk Direction.encoder 403 ("") ("")] [] buffer
  else if !eng.responseBodyAccessible then
    if !f.wasResponseBodyProcessedWithNoBody then
      let f1 := { f with wasResponseBodyProcessedWithNoBody := true,
                         wasResponseBodyProcessed := true }
      let vr := validateResponseBody eng f1 prior
      let tl := [LogEvent.message LogLevel.trace, LogEvent.message LogLevel.debug]
      if vr.ok then
        DataStepResult.mk StatusType.cont vr.state vr.calls vr.replies (tl ++ vr.logs) buffer
      else
        DataStepResult.mk StatusType.localReply vr.state vr.calls vr.replies
          (tl ++ vr.logs ++ [LogEvent.message LogLevel.error]) buffer
    else
      DataStepResult.mk StatusType.cont f [] []
        [LogEvent.message LogLevel.trace, LogEvent.message LogLevel.debug] buffer
  else
    let idx := countIf isWriteRespBody prior
    let wres : Option Interruption × Nat × Bool :=
      if buffer.length > 0 then eng.onWriteResponseBody idx buffer else (none, 0, false)
    let wcalls := if buffer.length > 0 then [EngineCall.writeResponseBody buffer] else []
    let tl := [LogEvent.message LogLevel.trace]
    if buffer.length > 0 && wres.2.2 then
      DataStepResult.mk StatusType.localReply f wcalls
        [LocalReplySent.mk Direction.encoder 500 ("") ("")]
        (tl ++ [LogEvent.message LogLevel.trace, LogEvent.message LogLevel.error]) buffer
    else if buffer.length > 0 && wres.1.isSome then
      let hr := handleInterruption f Phase.responseBody (wres.1.getD (Interruption.mk 0 ("") 0))
      DataStepResult.mk StatusType.localReply hr.state wcalls hr.replies
        (tl ++ [LogEvent.message LogLevel.trace] ++ hr.logs) buffer
    else if endStream then
      let f1 := { f with wasResponseBodyProcessed := true }
      let vr := validateResponseBody eng f1 (prior ++ wcalls)
      if vr.ok then
        DataStepResult.mk StatusType.cont vr.state (wcalls ++ vr.calls) vr.replies
          (tl ++ vr.logs) buffer
      else
        DataStepResult.mk StatusType.localReply vr.state (wcalls ++ vr.calls) vr.replies
          (tl ++ vr.logs ++ [LogEvent.message LogLevel.error])
          (List.replicate buffer.length 0)
    else
      DataStepResult.mk StatusType.cont f wcalls [] tl buffer

/-- Result of Filter.OnDestroy: it returns no status and sends no replies. -/
structure DestroyResult where
  state : FilterState
  calls : List EngineCall
  logs : List LogEvent

/-- Filter.OnDestroy: best-effort ProcessResponseBody when never finalized
(interruption discarded, error only logged), then ProcessLogging and Close. -/
def onDestroy (eng : Engine) (f : FilterState) (prior : List EngineCall) : DestroyResult :=
  if !f.txInitialized then DestroyResult.mk f [] []
  else
    let pre : FilterState × List EngineCall × List LogEvent :=
      if !f.wasResponseBodyProcessed then
        let f1 := { f with wasResponseBodyProcessed := true }
        let idx := countIf isProcRespBody prior
        match eng.onProcessResponseBody idx with
        | (_, true) =>
          (f1, [EngineCall.processResponseBody],
            [LogEvent.message LogLevel.debug, LogEvent.message LogLevel.error])
        | (_, false) =>
          (f1, [EngineCall.processResponseBody], [LogEvent.message LogLevel.debug])
      else (f, [], [])
    DestroyResult.mk pre.1 (pre.2.1 ++ [EngineCall.processLogging, EngineCall.close])
      (pre.2.2 ++ [LogEvent.message LogLevel.info])

/-- One full exchange as delivered by the proxy: request headers, zero or more
request body chunks (the last one carries endStream), response headers, zero
or more response body chunks, then teardown. An empty chunk list means the
corresponding header event carried endStream. -/
structure Exchange where
  reqHeaders : RequestHeaderMap
  info : StreamInfo
  reqChunks : List (List Nat)
  respHeaders : List (String × String)
  respChunks : List (List Nat)

/-- Deliver the request body chunks in order, the last one with endStream. -/
def runReqChunks (eng : Engine) :
    FilterState → List EngineCall → List (List Nat) →
      FilterState × List EngineCall × List StepResult
  | f, prior, [] => (f, prior, [])
  | f, prior, [c] =>
    let r := decodeData eng f prior c true
    (r.state, prior ++ r.calls, [r])
  | f, prior, c :: c2 :: rest =>
    let r := decodeData eng f prior c false
    let rec2 := runReqChunks eng r.state (prior ++ r.calls) (c2 :: rest)
    (rec2.1, rec2.2.1, r :: rec2.2.2)

/-- Deliver the response body chunks in order, the last one with endStream. -/
def runRespChunks (eng : Engine) :
    FilterState → List EngineCall → List (List Nat) →
      FilterState × List EngineCall × List DataStepResult
  | f, prior, [] => (f, prior, [])
  | f, prior, [c] =>
    let r := encodeData eng f prior c true
    (r.state, prior ++ r.calls, [r])
  | f, prior, c :: c2 :: rest =>
    let r := encodeData eng f prior c false
    let rec2 := runRespChunks eng r.state (prior ++ r.calls) (c2 :: rest)
    (rec2.1, rec2.2.1, r :: rec2.2.2)

/-- Result of driving one full exchange through the filter. -/
structure RunResult where
  dh : StepResult
  reqSteps : List StepResult
  eh : StepResult
  respSteps : List DataStepResult
  destroy : DestroyResult
  trace : List EngineCall

/-- Drive one full exchange: every event is delivered in the fixed order; the
handlers themselves guard against events arriving after an interruption. -/
def runExchange (eng : Engine) (ex : Exchange) : RunResult :=
  let dh := decodeHeaders eng initialFilterState [] ex.reqHeaders ex.info ex.reqChunks.isEmpty
  let r1 := runReqChunks eng dh.state dh.calls ex.reqChunks
  let eh := encodeHeaders eng r1.1 r1.2.1 ex.respHeaders ex.info ex.respChunks.isEmpty
  let r2 := runRespChunks eng eh.state (r1.2.1 ++ eh.calls) ex.respChunks
  let d := onDestroy eng r2.1 r2.2.1
  RunResult.mk dh r1.2.2 eh r2.2.2 d (r2.2.1 ++ d.calls)

/-- An engine that never interrupts, never errors, with everything enabled. -/
def engBenign : Engine :=
  { ruleEngineOff := false
    requestBodyAccessible := true
    responseBodyAccessible := true
    onProcessRequestHeaders := none
    onWriteRequestBody := fun _ d => (none, d.length, false)
    onProcessRequestBody := fun _ => (none, false)
    onProcessResponseHeaders := none
    onWriteResponseBody := fun _ d => (none, d.length, false)
    onProcessResponseBody := fun _ => (none, false) }

/-- A well-formed request header map without websocket upgrade headers. -/
def hdrsPlain : RequestHeaderMap :=
  { host := "example.com"
    path := "/"
    method := "GET"
    xRequestId := some ("id-1")
    entries := [(("accept"), ("*"))] }

/-- Stream info with parsable peer addresses. -/
def infoPlain : StreamInfo :=
  { downstreamRemoteAddress := "10.0.0.1:34000"
    downstreamLocalAddress := "10.0.0.2:80"
    protocol := some ("HTTP/1.1")
    responseCode := some 200 }

/-- A bodyless exchange: endStream on both header events. -/
def exBodyless : Exchange :=
  { reqHeaders := hdrsPlain
    info := infoPlain
    reqChunks := []
    respHeaders := [(("content-type"), ("text/plain"))]
    respChunks := [] }

/-- A chunked exchange with bodies on both sides. -/
def exChunked : Exchange :=
  { reqHeaders := hdrsPlain
    info := infoPlain
    reqChunks := [[1], [2], [3]]
    respHeaders := [(("content-type"), ("text/plain"))]
    respChunks := [[4], [5]] }

/-- The benign engine with the rule engine switched off. -/
def engOff : Engine :=
  { engBenign with ruleEngineOff := true }

/-- The benign engine with SecResponseBodyAccess off. -/
def engRespAccOff : Engine :=
  { engBenign with responseBodyAccessible := false }

/-- Response-body-access off and ProcessResponseBody interrupting on its first
call. -/
def engRespAccOffInt : Engine :=
  { engBenign with
    responseBodyAccessible := false
    onProcessResponseBody := fun i => (if i == 0 then some (Interruption.mk 941 ("deny") 403) else none, false) }

/-- Two response chunks with response-body access off and an interrupting
finalize: the second chunk arrives with wasInterrupted already true. -/
def exTwoRespChunks : Exchange :=
  { reqHeaders := hdrsPlain
    info := infoPlain
    reqChunks := []
    respHeaders := [(("content-type"), ("text/plain"))]
    respChunks := [[9], [10]] }

/-- Request headers carrying the websocket upgrade pair. -/
def hdrsUpgrade : RequestHeaderMap :=
  { host := "example.com"
    path := "/"
    method := "GET"
    xRequestId := some ("id-1")
    entries := [(("upgrade"), ("WebSocket")), (("connection"), ("Upgrade"))] }

/-- A websocket exchange: upgrade pair on both sides, response bytes arrive. -/
def exWebsocket : Exchange :=
  { reqHeaders := hdrsUpgrade
    info := infoPlain
    reqChunks := []
    respHeaders := [(("upgrade"), ("websocket")), (("connection"), ("upgrade"))]
    respChunks := [[7], [8]] }

/-- Response-body access off, bodyless response: the no-body path never runs
and ProcessResponseBody is called twice through the other paths. -/
def exNoRespBodyAccOff : Exchange := exBodyless

/-- A filter state as left by a successful DecodeHeaders over plain HTTP. -/
def fAfterHeaders : FilterState :=
  { txInitialized := true
    wasInterrupted := false
    wasRequestBodyProcessed := false
    wasResponseBodyProcessed := false
    wasResponseBodyProcessedWithNoBody := false
    httpProtocol := "HTTP/1.1"
    connection := ConnectionState.http }

/-- Engine whose WriteRequestBody fails with a non-interruption error. -/
def engWriteReqErr : Engine :=
  { engBenign with onWriteRequestBody := fun _ _ => (none, 0, true) }

/-- Engine whose ProcessRequestBody fails with a non-interruption error. -/
def engReqBodyErr : Engine :=
  { engBenign with onProcessRequestBody := fun _ => (none, true) }

/-- Engine whose WriteResponseBody fails with a non-interruption error. -/
def engWriteRespErr : Engine :=
  { engBenign with onWriteResponseBody := fun _ _ => (none, 0, true) }

/-- Engine whose ProcessResponseBody fails with a non-interruption error. -/
def engRespBodyErr : Engine :=
  { engBenign with onProcessResponseBody := fun _ => (none, true) }

/-- Request headers whose Host value fails net.SplitHostPort. -/
def hdrsBadHost : RequestHeaderMap :=
  { hdrsPlain with host := "a:b:c" }

/-- Stream info whose remote address fails net.SplitHostPort. -/
def infoBadRemote : StreamInfo :=
  { infoPlain with downstreamRemoteAddress := "nonsense" }

/-- Stream info whose remote port fails strconv.Atoi. -/
def infoBadPort : StreamInfo :=
  { infoPlain with downstreamRemoteAddress := "10.0.0.1:http" }

/-- Request headers with an empty Host value. -/
def hdrsNoHost : RequestHeaderMap :=
  { hdrsPlain with host := "" }

/-- An engine interrupting at ProcessRequestHeaders. -/
def engIntRH : Engine :=
  { engBenign with onProcessRequestHeaders := some (Interruption.mk 920 ("deny") 403) }

/-- A filter state with an interruption already handled. -/
def fInterrupted : FilterState :=
  { fAfterHeaders with wasInterrupted := true }

/-- A filter state after the no-body response finalize raised an interruption. -/
def fInterruptedNoBody : FilterState :=
  { fAfterHeaders with
    wasInterrupted := true
    wasResponseBodyProcessed := true
    wasResponseBodyProcessedWithNoBody := true }

/-- The filter state right after a successful transaction initialization from
the zero state: only txInitialized is set. -/
def fStart : FilterState :=
  { initialFilterState with txInitialized := true }

/-- Benign request-path engine operations: engine on, no interruption and no
error from WriteRequestBody or ProcessRequestBody. -/
def benignReq (eng : Engine) : Prop :=
  eng.ruleEngineOff = false ∧
  (∀ i d, eng.onWriteRequestBody i d = (none, d.length, false)) ∧
  (∀ i, eng.onProcessRequestBody i = (none, false))

/-- Benign response-path engine operations: no interruption and no error. -/
def benignResp (eng : Engine) : Prop :=
  eng.onProcessResponseHeaders = none ∧
  (∀ i d, eng.onWriteResponseBody i d = (none, d.length, false)) ∧
  (∀ i, eng.onProcessResponseBody i = (none, false))

theorem countIf_append (p : EngineCall → Bool) (a b : List EngineCall) :
    countIf p (a ++ b) = countIf p a + countIf p b := by
  simp [countIf, List.filter_append]

theorem countIf_map_zero {α : Type} (p : EngineCall → Bool) (g : α → EngineCall)
    (hp : ∀ a, p (g a) = false) (l : List α) :
    countIf p (l.map g) = 0 := by
  induction l with
  | nil => rfl
  | cons x xs ih =>
    simp only [List.map_cons, countIf, List.filter_cons, hp x] at *
    simpa using ih

/-- C10: a request-body chunk event with an empty buffer on a non-interrupted,
engine-enabled, request-body-accessible exchange returns Continue without any
WriteRequestBody or ProcessRequestBody call and without setting the completion
flag, even when endStream is true; the finalize is instead performed by the
deferred ProcessRequestBody of the response-headers handler when the flag is
still unset there. -/
theorem c10_empty_request_chunk (eng : Engine) (f : FilterState) (prior : List EngineCall)
    (endStream : Bool) (hI : f.wasInterrupted = false) (hOff : eng.ruleEngineOff = false)
    (hAcc : eng.requestBodyAccessible = true) :
    decodeData eng f prior [] endStream =
      StepResult.mk StatusType.cont f [] []
        [LogEvent.message LogLevel.trace, LogEvent.message LogLevel.debug] ∧
    (f.wasRequestBodyProcessed = false →
      (deferredReqBody eng f prior).calls = [EngineCall.processRequestBody]) := by
  constructor
  · simp [decodeData, hI, hOff, hAcc]
  · intro hFlag
    unfold deferredReqBody
    rcases h : eng.onProcessRequestBody (countIf isProcReqBody prior) with ⟨oi, e⟩
    cases e
    · cases oi <;> simp [hFlag, h]
    · simp [hFlag, h]

/-- Witness for C10 at a concrete state and the benign engine. -/
theorem c10_witness :
    decodeData engBenign fAfterHeaders [] [] true =
      StepResult.mk StatusType.cont fAfterHeaders [] []
        [LogEvent.message LogLevel.trace, LogEvent.message LogLevel.debug] ∧
    (deferredReqBody engBenign fAfterHeaders []).calls = [EngineCall.processRequestBody] := by
  have h := c10_empty_request_chunk engBenign fAfterHeaders [] true rfl rfl rfl
  exact ⟨h.1, h.2 rfl⟩

/-- C8: when the response-body finalize at end-of-stream reports a
non-interruption error, the outgoing buffer is overwritten with zero bytes of
its original length and the handler returns the local-reply directive (the 500
reply having been sent on the encoder direction). -/
theorem c8_scrub_on_finalize_error (eng : Engine) (f : FilterState) (prior : List EngineCall)
    (buffer : List Nat)
    (hTx : f.txInitialized = true) (hOff : eng.ruleEngineOff = false)
    (hWs : f.connection.isWebsocket = false)
    (hNB : f.wasResponseBodyProcessedWithNoBody = false)
    (hI : f.wasInterrupted = false) (hAcc : eng.responseBodyAccessible = true)
    (hW : ∀ i d, eng.onWriteResponseBody i d = (none, d.length, false))
    (hP : ∀ i, eng.onProcessResponseBody i = (none, true)) :
    (encodeData eng f prior buffer true).buffer = List.replicate buffer.length 0 ∧
    (encodeData eng f prior buffer true).status = StatusType.localReply ∧
    (encodeData eng f prior buffer true).replies =
      [LocalReplySent.mk Direction.encoder 500 ("") ("")] := by
  by_cases hb : buffer.length > 0 <;>
    simp [encodeData, validateResponseBody, hTx, hOff, hWs, hNB, hI, hAcc, hW, hP, hb]

/-- Witness for C8 at a concrete two-byte buffer and an erroring engine. -/
theorem c8_witness :
    (encodeData engRespBodyErr fAfterHeaders [] [5, 6] true).buffer = List.replicate 2 0 ∧
    (encodeData engRespBodyErr fAfterHeaders [] [5, 6] true).status = StatusType.localReply ∧
    (encodeData engRespBodyErr fAfterHeaders [] [5, 6] true).replies =
      [LocalReplySent.mk Direction.encoder 500 ("") ("")] :=
  c8_scrub_on_finalize_error engRespBodyErr fAfterHeaders [] [5, 6] rfl rfl rfl rfl rfl rfl
    (fun _ _ => rfl) (fun _ => rfl)

theorem splitHostPortF_some (s ip ps : String) (p : Int)
    (h1 : goSplitHostPort s = some (ip, ps)) (h2 : goAtoi ps = some p) :
    splitHostPortF s = (some (ip, p), []) := by
  simp [splitHostPortF, h1, h2]

theorem scanReq_no_procReqBody (es : List (String × String)) :
    countIf isProcReqBody (scanRequestHeaders es).2.2 = 0 :=
  countIf_map_zero _ _ (fun _ => rfl) es

theorem decodeHeaders_prh_interrupt (eng : Engine) (f0 : FilterState) (prior : List EngineCall)
    (hm : RequestHeaderMap) (info : StreamInfo) (endStream : Bool) (i : Interruption)
    (rip rps lip lps : String) (rport lport : Int)
    (hh : (hm.host.length == 0) = false)
    (hc : containsSub hm.host (":") = false)
    (hOff : eng.ruleEngineOff = false)
    (hR : goSplitHostPort info.downstreamRemoteAddress = some (rip, rps))
    (hRp : goAtoi rps = some rport)
    (hL : goSplitHostPort info.downstreamLocalAddress = some (lip, lps))
    (hLp : goAtoi lps = some lport)
    (hPRH : eng.onProcessRequestHeaders = some i) :
    (decodeHeaders eng f0 prior hm info endStream).status = StatusType.localReply ∧
    (decodeHeaders eng f0 prior hm info endStream).replies =
      [LocalReplySent.mk Direction.decoder i.status ("") ("")] ∧
    (decodeHeaders eng f0 prior hm info endStream).state.wasInterrupted = true ∧
    countIf isProcReqBody (decodeHeaders eng f0 prior hm info endStream).calls = 0 ∧
    LogEvent.interrupted Phase.requestHeader i.ruleID i.action i.status ∈
      (decodeHeaders eng f0 prior hm info endStream).logs := by
  have hSR := splitHostPortF_some _ _ _ _ hR hRp
  have hSL := splitHostPortF_some _ _ _ _ hL hLp
  simp [decodeHeaders, initTx, hh, hc, hOff, hSR, hSL, hPRH, handleInterruption,
    countIf_append, countIf, isProcReqBody, scanRequestHeaders, List.filter_map]

/-- C4: dispatching an Interruption sets wasInterrupted, logs phase, ruleID,
action and status at Info level and sends a local reply carrying exactly the
Interruption's status with an empty body — on the decoder direction for the
Request phases and on the encoder direction for the Response phases; in
particular an interrupting ProcessRequestHeaders makes DecodeHeaders return a
local-reply directive with a decoder-direction reply and no ProcessRequestBody
call follows in that handler. -/
theorem c4_interruption_dispatch :
    (∀ f i, handleInterruption f Phase.requestHeader i =
      InterruptResult.mk { f with wasInterrupted := true }
        [LocalReplySent.mk Direction.decoder i.status ("") ("")]
        [LogEvent.interrupted Phase.requestHeader i.ruleID i.action i.status]) ∧
    (∀ f i, handleInterruption f Phase.requestBody i =
      InterruptResult.mk { f with wasInterrupted := true }
        [LocalReplySent.mk Direction.decoder i.status ("") ("")]
        [LogEvent.interrupted Phase.requestBody i.ruleID i.action i.status]) ∧
    (∀ f i, handleInterruption f Phase.responseHeader i =
      InterruptResult.mk { f with wasInterrupted := true }
        [LocalReplySent.mk Direction.encoder i.status ("") ("")]
        [LogEvent.interrupted Phase.responseHeader i.ruleID i.action i.status]) ∧
    (∀ f i, handleInterruption f Phase.responseBody i =
      InterruptResult.mk { f with wasInterrupted := true }
        [LocalReplySent.mk Direction.encoder i.status ("") ("")]
        [LogEvent.interrupted Phase.responseBody i.ruleID i.action i.status]) ∧
    (∀ p rid a s, LogEvent.levelOf (LogEvent.interrupted p rid a s) = LogLevel.info) ∧
    (∀ eng f0 prior hm info endStream i rip rps lip lps rport lport,
      (hm.host.length == 0) = false →
      containsSub hm.host (":") = false →
      eng.ruleEngineOff = false →
      goSplitHostPort info.downstreamRemoteAddress = some (rip, rps) →
      goAtoi rps = some rport →
      goSplitHostPort info.downstreamLocalAddress = some (lip, lps) →
      goAtoi lps = some lport →
      eng.onProcessRequestHeaders = some i →
      (decodeHeaders eng f0 prior hm info endStream).status = StatusType.localReply ∧
      (decodeHeaders eng f0 prior hm info endStream).replies =
        [LocalReplySent.mk Direction.decoder i.status ("") ("")] ∧
      (decodeHeaders eng f0 prior hm info endStream).state.wasInterrupted = true ∧
      countIf isProcReqBody (decodeHeaders eng f0 prior hm info endStream).calls = 0 ∧
      LogEvent.interrupted Phase.requestHeader i.ruleID i.action i.status ∈
        (decodeHeaders eng f0 prior hm info endStream).logs) := by
  refine ⟨fun f i => rfl, fun f i => rfl, fun f i => rfl, fun f i => rfl, fun p rid a s => rfl,
    ?_⟩
  intro eng f0 prior hm info endStream i rip rps lip lps rport lport hh hc hOff hR hRp hL hLp hPRH
  exact decodeHeaders_prh_interrupt eng f0 prior hm info endStream i rip rps lip lps rport lport
    hh hc hOff hR hRp hL hLp hPRH

/-- Witness for C4 at the interrupting engine and plain request headers. -/
theorem c4_witness :
    (decodeHeaders engIntRH initialFilterState [] hdrsPlain infoPlain true).status =
      StatusType.localReply ∧
    (decodeHeaders engIntRH initialFilterState [] hdrsPlain infoPlain true).replies =
      [LocalReplySent.mk Direction.decoder 403 ("") ("")] ∧
    countIf isProcReqBody
      (decodeHeaders engIntRH initialFilterState [] hdrsPlain infoPlain true).calls = 0 := by
  have h := (c4_interruption_dispatch.2.2.2.2.2 engIntRH initialFilterState [] hdrsPlain
    infoPlain true (Interruption.mk 920 ("deny") 403) ("10.0.0.1") ("34000") ("10.0.0.2") ("80")
    34000 80 (by decide) (by decide) rfl (by decide) (by decide) (by decide) (by decide) rfl)
  exact ⟨h.1, h.2.1, h.2.2.2.1⟩

/-- Counterexample to C1 as stated: in a bodyless exchange with a benign
engine, ProcessRequestBody and ProcessResponseBody are each invoked twice
(once by the endStream path of the header handlers, which does not set the
completion flag, and once more by EncodeHeaders and OnDestroy). -/
theorem c1_counterexample :
    countIf isProcReqBody (runExchange engBenign exBodyless).trace = 2 ∧
    countIf isProcRespBody (runExchange engBenign exBodyless).trace = 2 ∧
    countIf isProcReqBody (runExchange engBenign exBodyless).trace ≠ 1 ∧
    countIf isProcRespBody (runExchange engBenign exBodyless).trace ≠ 1 := by
  decide

/-- Counterexample to C2 as stated: a WriteRequestBody error makes DecodeData
send a decoder 500 local reply and return the local-reply directive, rather
than failing open with no reply. -/
theorem c2_counterexample :
    (decodeData engWriteReqErr fAfterHeaders [] [1] false).status = StatusType.localReply ∧
    (decodeData engWriteReqErr fAfterHeaders [] [1] false).replies =
      [LocalReplySent.mk Direction.decoder 500 ("") ("")] ∧
    (decodeData engWriteReqErr fAfterHeaders [] [1] false).replies ≠ [] := by
  decide

/-- Counterexample to C3 as stated: on a Host value that fails host:port
splitting the 403 reply is sent, but the Transaction has already been created
and mutated (NewTransactionWithID and AddRequestHeader precede the split). -/
theorem c3_counterexample :
    (decodeHeaders engBenign initialFilterState [] hdrsBadHost infoPlain true).state.txInitialized
      = true ∧
    (decodeHeaders engBenign initialFilterState [] hdrsBadHost infoPlain true).calls =
      [EngineCall.newTransaction ("id-1"), EngineCall.addRequestHeader ("Host") ("a:b:c")] ∧
    (decodeHeaders engBenign initialFilterState [] hdrsBadHost infoPlain true).calls ≠ [] := by
  decide

/-- Counterexample to C5 as stated: after an interruption raised by the
no-response-body finalize, the next response-body chunk event arrives with
wasInterrupted already true yet returns Continue with no reply at all, instead
of re-issuing a 403 local reply. -/
theorem c5_counterexample :
    ((runExchange engRespAccOffInt exTwoRespChunks).respSteps.map
        (fun r => r.state.wasInterrupted)) = [true, true] ∧
    ((runExchange engRespAccOffInt exTwoRespChunks).respSteps.map (fun r => r.status)) =
      [StatusType.localReply, StatusType.cont] ∧
    ((runExchange engRespAccOffInt exTwoRespChunks).respSteps.map (fun r => r.replies)) =
      [[LocalReplySent.mk Direction.encoder 403 ("") ("")], []] := by
  decide

/-- Counterexample to C6 as stated: with the rule engine off, teardown still
makes engine calls (ProcessResponseBody, ProcessLogging, Close). -/
theorem c6_counterexample :
    (runExchange engOff exChunked).destroy.calls =
      [EngineCall.processResponseBody, EngineCall.processLogging, EngineCall.close] ∧
    countIf isProcRespBody (runExchange engOff exChunked).trace = 1 ∧
    (runExchange engOff exChunked).destroy.calls ≠ [] := by
  decide

/-- Counterexample to C7 as stated: an established websocket exchange with
response bytes still has one ProcessResponseBody call over the whole
exchange, made by the teardown handler. -/
theorem c7_counterexample :
    (runExchange engBenign exWebsocket).eh.state.connection =
      ConnectionState.websocketConnection ∧
    countIf isProcRespBody (runExchange engBenign exWebsocket).trace = 1 ∧
    countIf isProcRespBody (runExchange engBenign exWebsocket).trace ≠ 0 := by
  decide

/-- Counterexample to C9 as stated: with response-body access disabled and a
bodyless response, ProcessResponseBody runs twice (EncodeHeaders endStream
path and teardown) and never through the no-body variant path. -/
theorem c9_counterexample :
    countIf isProcRespBody (runExchange engRespAccOff exBodyless).trace = 2 ∧
    (runExchange engRespAccOff exBodyless).destroy.state.wasResponseBodyProcessedWithNoBody
      = false := by
  decide

theorem splitHostPortF_noSplit (s : String) (h : goSplitHostPort s = none) :
    splitHostPortF s = (none, [LocalReplySent.mk Direction.decoder 400 ("") ("")]) := by
  simp [splitHostPortF, h]

theorem splitHostPortF_noPort (s ip ps : String)
    (h1 : goSplitHostPort s = some (ip, ps)) (h2 : goAtoi ps = none) :
    splitHostPortF s = (none, [LocalReplySent.mk Direction.decoder 400 ("") ("")]) := by
  simp [splitHostPortF, h1, h2]

theorem scanResp_flags_off (c : ConnectionState) (es : List (String × String))
    (h : c.isWebsocketUpgradeRequested = false) :
    (scanResponseHeaders c es).1 = false ∧ (scanResponseHeaders c es).2.1 = false := by
  constructor <;>
  · show List.foldl _ false es = false
    induction es with
    | nil => rfl
    | cons kv rest ih =>
      rw [List.foldl_cons, h]
      simpa using ih

theorem decodeData_off (eng : Engine) (f : FilterState) (prior : List EngineCall)
    (buf : List Nat) (endStream : Bool)
    (hI : f.wasInterrupted = false) (hOff : eng.ruleEngineOff = true) :
    decodeData eng f prior buf endStream = StepResult.mk StatusType.cont f [] [] [] := by
  simp [decodeData, hI, hOff]

theorem runReqChunks_off (eng : Engine) (f : FilterState)
    (hI : f.wasInterrupted = false) (hOff : eng.ruleEngineOff = true)
    (prior : List EngineCall) (chunks : List (List Nat)) :
    runReqChunks eng f prior chunks =
      (f, prior, chunks.map (fun _ => StepResult.mk StatusType.cont f [] [] [])) := by
  induction chunks generalizing prior with
  | nil => simp [runReqChunks]
  | cons c rest ih =>
    cases rest with
    | nil => simp [runReqChunks, decodeData_off eng f prior c true hI hOff]
    | cons c2 r2 =>
      simp [runReqChunks, decodeData_off eng f prior c false hI hOff, ih]

theorem encodeData_guard (eng : Engine) (f : FilterState) (prior : List EngineCall)
    (buf : List Nat) (endStream : Bool)
    (h : (!f.txInitialized || eng.ruleEngineOff || f.connection.isWebsocket ||
      f.wasResponseBodyProcessedWithNoBody) = true) :
    encodeData eng f prior buf endStream =
      DataStepResult.mk StatusType.cont f [] []
        (if f.connection.isWebsocket then [LogEvent.message LogLevel.debug] else []) buf := by
  simp only [encodeData, h, if_true]

theorem runRespChunks_guard (eng : Engine) (f : FilterState)
    (h : (!f.txInitialized || eng.ruleEngineOff || f.connection.isWebsocket ||
      f.wasResponseBodyProcessedWithNoBody) = true)
    (prior : List EngineCall) (chunks : List (List Nat)) :
    runRespChunks eng f prior chunks =
      (f, prior, chunks.map (fun c => DataStepResult.mk StatusType.cont f [] []
        (if f.connection.isWebsocket then [LogEvent.message LogLevel.debug] else []) c)) := by
  induction chunks generalizing prior with
  | nil => simp [runRespChunks]
  | cons c rest ih =>
    cases rest with
    | nil => simp [runRespChunks, encodeData_guard eng f prior c true h]
    | cons c2 r2 =>
      simp [runRespChunks, encodeData_guard eng f prior c false h, ih]

theorem encodeHeaders_txOff (eng : Engine) (f : FilterState) (prior : List EngineCall)
    (entries : List (String × String)) (info : StreamInfo) (endStream : Bool)
    (hI : f.wasInterrupted = false)
    (h : (!f.txInitialized || eng.ruleEngineOff) = true) :
    encodeHeaders eng f prior entries info endStream = StepResult.mk StatusType.cont f [] [] [] := by
  simp only [encodeHeaders, hI, Bool.false_eq_true, if_false, h, if_true]

theorem onDestroy_calls (eng : Engine) (f : FilterState) (prior : List EngineCall)
    (hTx : f.txInitialized = true) (hP : f.wasResponseBodyProcessed = false) :
    (onDestroy eng f prior).calls =
      [EngineCall.processResponseBody, EngineCall.processLogging, EngineCall.close] := by
  rcases h : eng.onProcessResponseBody (countIf isProcRespBody prior) with ⟨oi, e⟩
  cases e <;> simp [onDestroy, hTx, hP, h]

theorem onDestroy_skip (eng : Engine) (f : FilterState) (prior : List EngineCall)
    (hTx : f.txInitialized = true) (hP : f.wasResponseBodyProcessed = true) :
    (onDestroy eng f prior).calls = [EngineCall.processLogging, EngineCall.close] := by
  simp [onDestroy, hTx, hP]

/-- C5 as amended: once wasInterrupted is true, no engine-mutating Transaction
call is made by any later handler except the teardown finalize-and-log
sequence; a later request-body chunk event re-issues a 403 decoder reply; a
later response-body chunk event re-issues a 403 encoder reply unless the
transaction is nil, the engine off, the connection a websocket or the no-body
finalize flag is set, in which case it passes through with no engine call and
no reply; response headers pass through with no engine call. -/
theorem c5_amended :
    (∀ eng f prior buf endStream, f.wasInterrupted = true →
      decodeData eng f prior buf endStream =
        StepResult.mk StatusType.localReply f []
          [LocalReplySent.mk Direction.decoder 403 ("") ("interruption-already-handled")] []) ∧
    (∀ eng f prior (entries : List (String × String)) info endStream, f.wasInterrupted = true →
      encodeHeaders eng f prior entries info endStream =
        StepResult.mk StatusType.cont f [] [] [LogEvent.message LogLevel.debug]) ∧
    (∀ eng f prior buf endStream, f.wasInterrupted = true →
      (!f.txInitialized || eng.ruleEngineOff || f.connection.isWebsocket ||
        f.wasResponseBodyProcessedWithNoBody) = false →
      encodeData eng f prior buf endStream =
        DataStepResult.mk StatusType.localReply f []
          [LocalReplySent.mk Direction.encoder 403 ("") ("")] [] buf) ∧
    (∀ eng f prior buf endStream,
      (!f.txInitialized || eng.ruleEngineOff || f.connection.isWebsocket ||
        f.wasResponseBodyProcessedWithNoBody) = true →
      (encodeData eng f prior buf endStream).calls = [] ∧
      (encodeData eng f prior buf endStream).replies = [] ∧
      (encodeData eng f prior buf endStream).status = StatusType.cont) ∧
    (∀ eng f prior, f.txInitialized = true → f.wasResponseBodyProcessed = false →
      (onDestroy eng f prior).calls =
        [EngineCall.processResponseBody, EngineCall.processLogging, EngineCall.close]) := by
  refine ⟨?_, ?_, ?_, ?_, ?_⟩
  · intro eng f prior buf endStream h
    simp [decodeData, h]
  · intro eng f prior entries info endStream h
    simp [encodeHeaders, h]
  · intro eng f prior buf endStream h hG
    simp [encodeData, h, hG]
  · intro eng f prior buf endStream hG
    simp [encodeData_guard eng f prior buf endStream hG]
  · intro eng f prior hTx hP
    exact onDestroy_calls eng f prior hTx hP

/-- Witness for C5 at concrete interrupted states. -/
theorem c5_witness :
    decodeData engBenign fInterrupted [] [1] false =
      StepResult.mk StatusType.localReply fInterrupted []
        [LocalReplySent.mk Direction.decoder 403 ("") ("interruption-already-handled")] [] ∧
    encodeData engBenign fInterrupted [] [1] false =
      DataStepResult.mk StatusType.localReply fInterrupted []
        [LocalReplySent.mk Direction.encoder 403 ("") ("")] [] [1] ∧
    (encodeData engBenign fInterruptedNoBody [] [1] false).calls = [] ∧
    (onDestroy engBenign fInterrupted []).calls =
      [EngineCall.processResponseBody, EngineCall.processLogging, EngineCall.close] := by
  refine ⟨c5_amended.1 engBenign fInterrupted [] [1] false rfl,
    c5_amended.2.2.1 engBenign fInterrupted [] [1] false rfl rfl,
    (c5_amended.2.2.2.1 engBenign fInterruptedNoBody [] [1] false (by decide)).1,
    c5_amended.2.2.2.2 engBenign fInterrupted [] rfl rfl⟩

/-- C2 as amended: a non-Interruption error from WriteRequestBody,
ProcessRequestBody, WriteResponseBody or ProcessResponseBody in the stream
handlers is logged and answered with a 500 local reply on the handler's
direction together with a local-reply directive (fail closed); the
response-body end-of-stream finalize additionally scrubs the outgoing buffer;
only the teardown finalize error is logged without any reply. -/
theorem c2_amended :
    (∀ eng f prior (buf : List Nat) endStream,
      f.wasInterrupted = false → eng.ruleEngineOff = false →
      eng.requestBodyAccessible = true → 0 < buf.length →
      (eng.onWriteRequestBody (countIf isWriteReqBody prior) buf).2.2 = true →
      decodeData eng f prior buf endStream =
        StepResult.mk StatusType.localReply f [EngineCall.writeRequestBody buf]
          [LocalReplySent.mk Direction.decoder 500 ("") ("")]
          [LogEvent.message LogLevel.trace, LogEvent.message LogLevel.trace,
            LogEvent.message LogLevel.error]) ∧
    (∀ eng f prior (buf : List Nat),
      f.wasInterrupted = false → eng.ruleEngineOff = false →
      eng.requestBodyAccessible = true → 0 < buf.length →
      (∃ n, eng.onWriteRequestBody (countIf isWriteReqBody prior) buf = (none, n, false)) →
      (eng.onProcessRequestBody (countIf isProcReqBody prior)).2 = true →
      (decodeData eng f prior buf true).status = StatusType.localReply ∧
      (decodeData eng f prior buf true).replies =
        [LocalReplySent.mk Direction.decoder 500 ("") ("")] ∧
      LogEvent.message LogLevel.error ∈ (decodeData eng f prior buf true).logs) ∧
    (∀ eng f prior (entries : List (String × String)) info endStream,
      f.wasInterrupted = false → f.txInitialized = true → eng.ruleEngineOff = false →
      f.wasRequestBodyProcessed = false →
      (eng.onProcessRequestBody (countIf isProcReqBody prior)).2 = true →
      encodeHeaders eng f prior entries info endStream =
        StepResult.mk StatusType.localReply { f with wasRequestBodyProcessed := true }
          [EngineCall.processRequestBody]
          [LocalReplySent.mk Direction.encoder 500 ("") ("")]
          [LogEvent.message LogLevel.debug, LogEvent.message LogLevel.error]) ∧
    (∀ eng f prior (buf : List Nat) endStream,
      (!f.txInitialized || eng.ruleEngineOff || f.connection.isWebsocket ||
        f.wasResponseBodyProcessedWithNoBody) = false →
      f.wasInterrupted = false → eng.responseBodyAccessible = true → 0 < buf.length →
      (eng.onWriteResponseBody (countIf isWriteRespBody prior) buf).2.2 = true →
      encodeData eng f prior buf endStream =
        DataStepResult.mk StatusType.localReply f [EngineCall.writeResponseBody buf]
          [LocalReplySent.mk Direction.encoder 500 ("") ("")]
          [LogEvent.message LogLevel.trace, LogEvent.message LogLevel.trace,
            LogEvent.message LogLevel.error] buf) ∧
    (∀ eng f prior (buf : List Nat),
      (!f.txInitialized || eng.ruleEngineOff || f.connection.isWebsocket ||
        f.wasResponseBodyProcessedWithNoBody) = false →
      f.wasInterrupted = false → eng.responseBodyAccessible = true → 0 < buf.length →
      (∃ n, eng.onWriteResponseBody (countIf isWriteRespBody prior) buf = (none, n, false)) →
      (eng.onProcessResponseBody (countIf isProcRespBody prior)).2 = true →
      (encodeData eng f prior buf true).status = StatusType.localReply ∧
      (encodeData eng f prior buf true).replies =
        [LocalReplySent.mk Direction.encoder 500 ("") ("")] ∧
      (encodeData eng f prior buf true).buffer = List.replicate buf.length 0) ∧
    (∀ eng f prior,
      f.txInitialized = true → f.wasResponseBodyProcessed = false →
      (eng.onProcessResponseBody (countIf isProcRespBody prior)).2 = true →
      onDestroy eng f prior =
        DestroyResult.mk { f with wasResponseBodyProcessed := true }
          [EngineCall.processResponseBody, EngineCall.processLogging, EngineCall.close]
          [LogEvent.message LogLevel.debug, LogEvent.message LogLevel.error,
            LogEvent.message LogLevel.info]) := by
  refine ⟨?_, ?_, ?_, ?_, ?_, ?_⟩
  · intro eng f prior buf endStream hI hOff hAcc hb hErr
    rcases h : eng.onWriteRequestBody (countIf isWriteReqBody prior) buf with ⟨oi, n, er⟩
    rw [h] at hErr
    simp at hErr
    subst hErr
    simp [decodeData, hI, hOff, hAcc, hb, h]
  · intro eng f prior buf hI hOff hAcc hb hW hFin
    rcases hW with ⟨n, hW⟩
    have hidx : countIf isProcReqBody (prior ++ [EngineCall.writeRequestBody buf]) =
        countIf isProcReqBody prior := by
      simp [countIf_append, countIf, isProcReqBody]
    rcases h2 : eng.onProcessRequestBody (countIf isProcReqBody prior) with ⟨oi2, e2⟩
    rw [h2] at hFin
    simp at hFin
    subst hFin
    refine ⟨?_, ?_, ?_⟩ <;>
      simp [decodeData, validateRequestBody, hI, hOff, hAcc, hb, hW, hidx, h2]
  · intro eng f prior entries info endStream hI hTx hOff hFlag hFin
    rcases h2 : eng.onProcessRequestBody (countIf isProcReqBody prior) with ⟨oi2, e2⟩
    rw [h2] at hFin
    simp at hFin
    subst hFin
    simp [encodeHeaders, deferredReqBody, hI, hTx, hOff, hFlag, h2]
  · intro eng f prior buf endStream hG hI hAcc hb hErr
    rcases h : eng.onWriteResponseBody (countIf isWriteRespBody prior) buf with ⟨oi, n, er⟩
    rw [h] at hErr
    simp at hErr
    subst hErr
    simp [encodeData, hG, hI, hAcc, hb, h]
  · intro eng f prior buf hG hI hAcc hb hW hFin
    rcases hW with ⟨n, hW⟩
    have hidx : countIf isProcRespBody (prior ++ [EngineCall.writeResponseBody buf]) =
        countIf isProcRespBody prior := by
      simp [countIf_append, countIf, isProcRespBody]
    rcases h2 : eng.onProcessResponseBody (countIf isProcRespBody prior) with ⟨oi2, e2⟩
    rw [h2] at hFin
    simp at hFin
    subst hFin
    refine ⟨?_, ?_, ?_⟩ <;>
      simp [encodeData, validateResponseBody, hG, hI, hAcc, hb, hW, hidx, h2]
  · intro eng f prior hTx hP hFin
    rcases h2 : eng.onProcessResponseBody (countIf isProcRespBody prior) with ⟨oi2, e2⟩
    rw [h2] at hFin
    simp at hFin
    subst hFin
    simp [onDestroy, hTx, hP, h2]

/-- Witness for C2: the write-error and teardown-error cases at concrete
inputs. -/
theorem c2_witness :
    decodeData engWriteReqErr fAfterHeaders [] [1] false =
      StepResult.mk StatusType.localReply fAfterHeaders [EngineCall.writeRequestBody [1]]
        [LocalReplySent.mk Direction.decoder 500 ("") ("")]
        [LogEvent.message LogLevel.trace, LogEvent.message LogLevel.trace,
          LogEvent.message LogLevel.error] ∧
    onDestroy engRespBodyErr fAfterHeaders [] =
      DestroyResult.mk { fAfterHeaders with wasResponseBodyProcessed := true }
        [EngineCall.processResponseBody, EngineCall.processLogging, EngineCall.close]
        [LogEvent.message LogLevel.debug, LogEvent.message LogLevel.error,
          LogEvent.message LogLevel.info] :=
  ⟨c2_amended.1 engWriteReqErr fAfterHeaders [] [1] false rfl rfl rfl (by decide) rfl,
    c2_amended.2.2.2.2.2 engRespBodyErr fAfterHeaders [] rfl rfl rfl⟩

/-- C3 as amended: a missing Host header draws an immediate 403 decoder reply
before any Transaction exists; a Host value that fails host:port splitting
draws a 403, and an unparsable downstream address or port a 400, before any
ProcessConnection, ProcessURI or ProcessRequestHeaders call — but in these
three cases the Transaction has already been created and received the Host
header (and, once the host was parsed, the server name). -/
theorem c3_amended :
    (∀ eng f0 prior (hm : RequestHeaderMap) info endStream, hm.host = ("") →
      decodeHeaders eng f0 prior hm info endStream =
        StepResult.mk StatusType.localReply { f0 with connection := ConnectionState.http } []
          [LocalReplySent.mk Direction.decoder 403 ("") ("")] []) ∧
    (∀ eng f0 prior (hm : RequestHeaderMap) info endStream,
      (hm.host.length == 0) = false →
      containsSub hm.host (":") = true →
      goSplitHostPort hm.host = none →
      (decodeHeaders eng f0 prior hm info endStream).status = StatusType.localReply ∧
      (decodeHeaders eng f0 prior hm info endStream).replies =
        [LocalReplySent.mk Direction.decoder 403 ("") ("")] ∧
      (decodeHeaders eng f0 prior hm info endStream).calls =
        [EngineCall.newTransaction (hm.xRequestId.getD ("")),
          EngineCall.addRequestHeader ("Host") hm.host] ∧
      (decodeHeaders eng f0 prior hm info endStream).state.txInitialized = true) ∧
    (∀ eng f0 prior (hm : RequestHeaderMap) info endStream,
      (hm.host.length == 0) = false →
      containsSub hm.host (":") = false →
      eng.ruleEngineOff = false →
      goSplitHostPort info.downstreamRemoteAddress = none →
      (decodeHeaders eng f0 prior hm info endStream).status = StatusType.localReply ∧
      (decodeHeaders eng f0 prior hm info endStream).replies =
        [LocalReplySent.mk Direction.decoder 400 ("") ("")] ∧
      (decodeHeaders eng f0 prior hm info endStream).calls =
        [EngineCall.newTransaction (hm.xRequestId.getD ("")),
          EngineCall.addRequestHeader ("Host") hm.host,
          EngineCall.setServerName hm.host]) ∧
    (∀ eng f0 prior (hm : RequestHeaderMap) info endStream ip ps,
      (hm.host.length == 0) = false →
      containsSub hm.host (":") = false →
      eng.ruleEngineOff = false →
      goSplitHostPort info.downstreamRemoteAddress = some (ip, ps) →
      goAtoi ps = none →
      (decodeHeaders eng f0 prior hm info endStream).status = StatusType.localReply ∧
      (decodeHeaders eng f0 prior hm info endStream).replies =
        [LocalReplySent.mk Direction.decoder 400 ("") ("")] ∧
      (decodeHeaders eng f0 prior hm info endStream).calls =
        [EngineCall.newTransaction (hm.xRequestId.getD ("")),
          EngineCall.addRequestHeader ("Host") hm.host,
          EngineCall.setServerName hm.host]) ∧
    (∀ eng f0 prior (hm : RequestHeaderMap) info endStream rip rps rport,
      (hm.host.length == 0) = false →
      containsSub hm.host (":") = false →
      eng.ruleEngineOff = false →
      goSplitHostPort info.downstreamRemoteAddress = some (rip, rps) →
      goAtoi rps = some rport →
      goSplitHostPort info.downstreamLocalAddress = none →
      (decodeHeaders eng f0 prior hm info endStream).status = StatusType.localReply ∧
      (decodeHeaders eng f0 prior hm info endStream).replies =
        [LocalReplySent.mk Direction.decoder 400 ("") ("")] ∧
      (decodeHeaders eng f0 prior hm info endStream).calls =
        [EngineCall.newTransaction (hm.xRequestId.getD ("")),
          EngineCall.addRequestHeader ("Host") hm.host,
          EngineCall.setServerName hm.host]) := by
  refine ⟨?_, ?_, ?_, ?_, ?_⟩
  · intro eng f0 prior hm info endStream h
    simp [decodeHeaders, h]
  · intro eng f0 prior hm info endStream hh hc hs
    simp [decodeHeaders, initTx, hh, hc, hs]
  · intro eng f0 prior hm info endStream hh hc hOff hR
    simp [decodeHeaders, initTx, hh, hc, hOff, splitHostPortF_noSplit _ hR]
  · intro eng f0 prior hm info endStream ip ps hh hc hOff hR hA
    simp [decodeHeaders, initTx, hh, hc, hOff, splitHostPortF_noPort _ _ _ hR hA]
  · intro eng f0 prior hm info endStream rip rps rport hh hc hOff hR hRp hL
    simp [decodeHeaders, initTx, hh, hc, hOff, splitHostPortF_some _ _ _ _ hR hRp,
      splitHostPortF_noSplit _ hL]

/-- Witness for C3: missing Host, unsplittable Host and unparsable remote
address at concrete inputs. -/
theorem c3_witness :
    decodeHeaders engBenign initialFilterState [] hdrsNoHost infoPlain true =
      StepResult.mk StatusType.localReply
        { initialFilterState with connection := ConnectionState.http } []
        [LocalReplySent.mk Direction.decoder 403 ("") ("")] [] ∧
    (decodeHeaders engBenign initialFilterState [] hdrsBadHost infoPlain true).replies =
      [LocalReplySent.mk Direction.decoder 403 ("") ("")] ∧
    (decodeHeaders engBenign initialFilterState [] hdrsPlain infoBadRemote true).replies =
      [LocalReplySent.mk Direction.decoder 400 ("") ("")] :=
  ⟨c3_amended.1 engBenign initialFilterState [] hdrsNoHost infoPlain true rfl,
    (c3_amended.2.1 engBenign initialFilterState [] hdrsBadHost infoPlain true
      (by decide) (by decide) (by decide)).2.1,
    (c3_amended.2.2.1 engBenign initialFilterState [] hdrsPlain infoBadRemote true
      (by decide) (by decide) rfl (by decide)).2.1⟩

theorem decodeHeaders_engineOff (eng : Engine) (prior : List EngineCall)
    (hm : RequestHeaderMap) (info : StreamInfo) (endStream : Bool)
    (hh : (hm.host.length == 0) = false) (hc : containsSub hm.host (":") = false)
    (hOff : eng.ruleEngineOff = true) :
    (decodeHeaders eng initialFilterState prior hm info endStream).status = StatusType.cont ∧
    (decodeHeaders eng initialFilterState prior hm info endStream).state = fStart ∧
    (decodeHeaders eng initialFilterState prior hm info endStream).replies = [] := by
  refine ⟨?_, ?_, ?_⟩ <;>
    simp [decodeHeaders, initTx, hh, hc, hOff, fStart, initialFilterState]

/-- C6 as amended: with the rule engine off at request-header time, every
subsequent stream event handler returns Continue making no engine call and
sending no reply, while the teardown handler still performs the
finalize-and-log sequence ProcessResponseBody, ProcessLogging, Close. -/
theorem c6_amended (eng : Engine) (ex : Exchange)
    (hOff : eng.ruleEngineOff = true)
    (hh : (ex.reqHeaders.host.length == 0) = false)
    (hc : containsSub ex.reqHeaders.host (":") = false) :
    (runExchange eng ex).dh.status = StatusType.cont ∧
    (∀ r ∈ (runExchange eng ex).reqSteps,
      r.status = StatusType.cont ∧ r.calls = [] ∧ r.replies = []) ∧
    (runExchange eng ex).eh.status = StatusType.cont ∧
    (runExchange eng ex).eh.calls = [] ∧
    (∀ r ∈ (runExchange eng ex).respSteps,
      r.status = StatusType.cont ∧ r.calls = [] ∧ r.replies = []) ∧
    (runExchange eng ex).destroy.calls =
      [EngineCall.processResponseBody, EngineCall.processLogging, EngineCall.close] := by
  obtain ⟨hS, hF, hR⟩ :=
    decodeHeaders_engineOff eng [] ex.reqHeaders ex.info ex.reqChunks.isEmpty hh hc hOff
  have hreq := runReqChunks_off eng fStart rfl hOff
    (decodeHeaders eng initialFilterState [] ex.reqHeaders ex.info ex.reqChunks.isEmpty).calls
    ex.reqChunks
  have heh := encodeHeaders_txOff eng fStart
    (decodeHeaders eng initialFilterState [] ex.reqHeaders ex.info ex.reqChunks.isEmpty).calls
    ex.respHeaders ex.info ex.respChunks.isEmpty rfl (by simp [hOff, fStart])
  have hresp := runRespChunks_guard eng fStart (by simp [hOff, fStart])
  have hdes := onDestroy_calls eng fStart
  simp only [runExchange, hF, hreq, heh, hresp, hdes]
  refine ⟨hS, ?_, by trivial, by trivial, ?_, onDestroy_calls eng fStart _ rfl rfl⟩
  · intro r hr
    simp only [List.mem_map] at hr
    obtain ⟨c, _, hc2⟩ := hr
    subst hc2
    simp
  · intro r hr
    simp only [List.mem_map] at hr
    obtain ⟨c, _, hc2⟩ := hr
    subst hc2
    simp

/-- Witness for C6 at a concrete chunked exchange. -/
theorem c6_witness :
    (runExchange engOff exChunked).dh.status = StatusType.cont ∧
    (∀ r ∈ (runExchange engOff exChunked).reqSteps,
      r.status = StatusType.cont ∧ r.calls = [] ∧ r.replies = []) ∧
    (runExchange engOff exChunked).eh.status = StatusType.cont ∧
    (runExchange engOff exChunked).eh.calls = [] ∧
    (∀ r ∈ (runExchange engOff exChunked).respSteps,
      r.status = StatusType.cont ∧ r.calls = [] ∧ r.replies = []) ∧
    (runExchange engOff exChunked).destroy.calls =
      [EngineCall.processResponseBody, EngineCall.processLogging, EngineCall.close] :=
  c6_amended engOff exChunked rfl (by decide) (by decide)

theorem decodeData_fields (eng : Engine) (f : FilterState) (prior : List EngineCall)
    (buf : List Nat) (endStream : Bool) (hB : benignReq eng) :
    (decodeData eng f prior buf endStream).state.wasInterrupted = f.wasInterrupted ∧
    (decodeData eng f prior buf endStream).state.connection = f.connection ∧
    (decodeData eng f prior buf endStream).state.txInitialized = f.txInitialized ∧
    (decodeData eng f prior buf endStream).state.wasResponseBodyProcessed =
      f.wasResponseBodyProcessed ∧
    (decodeData eng f prior buf endStream).state.wasResponseBodyProcessedWithNoBody =
      f.wasResponseBodyProcessedWithNoBody ∧
    (decodeData eng f prior buf endStream).state.httpProtocol = f.httpProtocol ∧
    countIf isProcRespBody (decodeData eng f prior buf endStream).calls = 0 ∧
    countIf isWriteRespBody (decodeData eng f prior buf endStream).calls = 0 ∧
    countIf isProcRespHeaders (decodeData eng f prior buf endStream).calls = 0 ∧
    countIf isProcReqHeaders (decodeData eng f prior buf endStream).calls = 0 := by
  obtain ⟨hOff, hW, hP⟩ := hB
  by_cases h1 : f.wasInterrupted = true
  · simp [decodeData, h1, countIf]
  · simp only [Bool.not_eq_true] at h1
    by_cases h2 : eng.requestBodyAccessible = true
    · by_cases h3 : 0 < buf.length
      · by_cases h4 : endStream = true
        · simp [decodeData, validateRequestBody, h1, h2, h3, h4, hOff, hW, hP, countIf,
            isProcRespBody, isWriteRespBody, isProcRespHeaders, isProcReqHeaders]
        · simp only [Bool.not_eq_true] at h4
          by_cases h5 : f.connection.isHttp = true <;>
            simp [decodeData, h1, h2, h3, h4, h5, hOff, hW, countIf,
              isProcRespBody, isWriteRespBody, isProcRespHeaders, isProcReqHeaders]
      · simp [decodeData, h1, h2, h3, hOff, countIf]
    · simp only [Bool.not_eq_true] at h2
      simp [decodeData, validateRequestBody, h1, h2, hOff, hP, countIf,
        isProcRespBody, isWriteRespBody, isProcRespHeaders, isProcReqHeaders]

theorem runReqChunks_fields (eng : Engine) (hB : benignReq eng) (f : FilterState)
    (prior : List EngineCall) (chunks : List (List Nat)) :
    (runReqChunks eng f prior chunks).1.wasInterrupted = f.wasInterrupted ∧
    (runReqChunks eng f prior chunks).1.connection = f.connection ∧
    (runReqChunks eng f prior chunks).1.txInitialized = f.txInitialized ∧
    (runReqChunks eng f prior chunks).1.wasResponseBodyProcessed =
      f.wasResponseBodyProcessed ∧
    (runReqChunks eng f prior chunks).1.wasResponseBodyProcessedWithNoBody =
      f.wasResponseBodyProcessedWithNoBody ∧
    (runReqChunks eng f prior chunks).1.httpProtocol = f.httpProtocol ∧
    countIf isProcRespBody (runReqChunks eng f prior chunks).2.1 =
      countIf isProcRespBody prior ∧
    countIf isWriteRespBody (runReqChunks eng f prior chunks).2.1 =
      countIf isWriteRespBody prior ∧
    countIf isProcRespHeaders (runReqChunks eng f prior chunks).2.1 =
      countIf isProcRespHeaders prior ∧
    countIf isProcReqHeaders (runReqChunks eng f prior chunks).2.1 =
      countIf isProcReqHeaders prior := by
  induction chunks generalizing f prior with
  | nil => simp [runReqChunks]
  | cons c rest ih =>
    cases rest with
    | nil =>
      have hd := decodeData_fields eng f prior c true hB
      simp only [runReqChunks]
      refine ⟨hd.1, hd.2.1, hd.2.2.1, hd.2.2.2.1, hd.2.2.2.2.1, hd.2.2.2.2.2.1, ?_, ?_, ?_, ?_⟩ <;>
        simp [countIf_append, hd.2.2.2.2.2.2.1, hd.2.2.2.2.2.2.2.1,
          hd.2.2.2.2.2.2.2.2.1, hd.2.2.2.2.2.2.2.2.2]
    | cons c2 r2 =>
      have hd := decodeData_fields eng f prior c false hB
      have hr := ih (decodeData eng f prior c false).state
        (prior ++ (decodeData eng f prior c false).calls)
      simp only [runReqChunks]
      refine ⟨?_, ?_, ?_, ?_, ?_, ?_, ?_, ?_, ?_, ?_⟩
      · rw [hr.1, hd.1]
      · rw [hr.2.1, hd.2.1]
      · rw [hr.2.2.1, hd.2.2.1]
      · rw [hr.2.2.2.1, hd.2.2.2.1]
      · rw [hr.2.2.2.2.1, hd.2.2.2.2.1]
      · rw [hr.2.2.2.2.2.1, hd.2.2.2.2.2.1]
      · rw [hr.2.2.2.2.2.2.1, countIf_append, hd.2.2.2.2.2.2.1, Nat.add_zero]
      · rw [hr.2.2.2.2.2.2.2.1, countIf_append, hd.2.2.2.2.2.2.2.1, Nat.add_zero]
      · rw [hr.2.2.2.2.2.2.2.2.1, countIf_append, hd.2.2.2.2.2.2.2.2.1, Nat.add_zero]
      · rw [hr.2.2.2.2.2.2.2.2.2, countIf_append, hd.2.2.2.2.2.2.2.2.2, Nat.add_zero]

theorem encodeHeaders_ok_noEnd (eng : Engine) (f : FilterState) (prior : List EngineCall)
    (entries : List (String × String)) (info : StreamInfo)
    (hI : f.wasInterrupted = false) (hTx : f.txInitialized = true)
    (hOff : eng.ruleEngineOff = false)
    (hP : ∀ i, eng.onProcessRequestBody i = (none, false))
    (hPH : eng.onProcessResponseHeaders = none) :
    (encodeHeaders eng f prior entries info false).state =
      { f with
        wasRequestBodyProcessed := true
        connection := if (scanResponseHeaders f.connection entries).1 &&
            (scanResponseHeaders f.connection entries).2.1
          then ConnectionState.websocketConnection else f.connection } ∧
    (encodeHeaders eng f prior entries info false).calls =
      (if f.wasRequestBodyProcessed then [] else [EngineCall.processRequestBody]) ++
        (scanResponseHeaders f.connection entries).2.2 ++
        [EngineCall.processResponseHeaders (info.responseCode.getD 0) f.httpProtocol] ∧
    (encodeHeaders eng f prior entries info false).replies = [] ∧
    (encodeHeaders eng f prior entries info false).status =
      (if eng.responseBodyAccessible &&
          (if (scanResponseHeaders f.connection entries).1 &&
              (scanResponseHeaders f.connection entries).2.1
            then ConnectionState.websocketConnection else f.connection).isHttp
        then StatusType.stopAndBuffer else StatusType.cont) := by
  obtain ⟨tx, wi, wr, wrp, wrn, hpr, conn⟩ := f
  dsimp only at hI hTx
  subst hI
  subst hTx
  cases wr with
  | false =>
    by_cases hScan : ((scanResponseHeaders conn entries).1 &&
        (scanResponseHeaders conn entries).2.1) = true
    · simp [encodeHeaders, deferredReqBody, hOff, hP, hPH, hScan, ConnectionState.isHttp]
    · simp only [Bool.not_eq_true] at hScan
      by_cases hB2 : (eng.responseBodyAccessible && conn.isHttp) = true <;>
        simp [encodeHeaders, deferredReqBody, hOff, hP, hPH, hScan, hB2]
  | true =>
    by_cases hScan : ((scanResponseHeaders conn entries).1 &&
        (scanResponseHeaders conn entries).2.1) = true
    · simp [encodeHeaders, deferredReqBody, hOff, hP, hPH, hScan, ConnectionState.isHttp]
    · simp only [Bool.not_eq_true] at hScan
      by_cases hB2 : (eng.responseBodyAccessible && conn.isHttp) = true <;>
        simp [encodeHeaders, deferredReqBody, hOff, hP, hPH, hScan, hB2]

theorem decodeHeaders_ok (eng : Engine) (prior : List EngineCall)
    (hm : RequestHeaderMap) (info : StreamInfo) (endStream : Bool)
    (rip rps lip lps : String) (rport lport : Int) (proto : String)
    (hh : (hm.host.length == 0) = false)
    (hc : containsSub hm.host (":") = false)
    (hOff : eng.ruleEngineOff = false)
    (hR : goSplitHostPort info.downstreamRemoteAddress = some (rip, rps))
    (hRp : goAtoi rps = some rport)
    (hL : goSplitHostPort info.downstreamLocalAddress = some (lip, lps))
    (hLp : goAtoi lps = some lport)
    (hProto : info.protocol = some proto)
    (hPRH : eng.onProcessRequestHeaders = none)
    (hPRB : ∀ i, eng.onProcessRequestBody i = (none, false)) :
    (decodeHeaders eng initialFilterState prior hm info endStream).state =
      { txInitialized := true
        wasInterrupted := false
        wasRequestBodyProcessed := false
        wasResponseBodyProcessed := false
        wasResponseBodyProcessedWithNoBody := false
        httpProtocol := proto
        connection :=
          if (scanRequestHeaders hm.entries).1 && (scanRequestHeaders hm.entries).2.1
            then ConnectionState.upgradeWebsocketRequested else ConnectionState.http } ∧
    (decodeHeaders eng initialFilterState prior hm info endStream).calls =
      [EngineCall.newTransaction (hm.xRequestId.getD ("")),
        EngineCall.addRequestHeader ("Host") hm.host,
        EngineCall.setServerName hm.host,
        EngineCall.processConnection rip rport lip lport,
        EngineCall.processURI hm.path hm.method proto] ++
      (scanRequestHeaders hm.entries).2.2 ++ [EngineCall.processRequestHeaders] ++
      (if endStream then [EngineCall.processRequestBody] else []) ∧
    (decodeHeaders eng initialFilterState prior hm info endStream).replies = [] ∧
    (decodeHeaders eng initialFilterState prior hm info endStream).status =
      (if endStream then StatusType.cont else StatusType.stopAndBufferWatermark) := by
  have hSR := splitHostPortF_some _ _ _ _ hR hRp
  have hSL := splitHostPortF_some _ _ _ _ hL hLp
  by_cases hScan : ((scanRequestHeaders hm.entries).1 &&
      (scanRequestHeaders hm.entries).2.1) = true
  · cases endStream <;>
      simp [decodeHeaders, initTx, validateRequestBody, initialFilterState, hh, hc, hOff,
        hSR, hSL, hProto, hPRH, hPRB, hScan]
  · simp only [Bool.not_eq_true] at hScan
    cases endStream <;>
      simp [decodeHeaders, initTx, validateRequestBody, initialFilterState, hh, hc, hOff,
        hSR, hSL, hProto, hPRH, hPRB, hScan]

theorem decodeData_benign_mid (eng : Engine) (f : FilterState) (prior : List EngineCall)
    (buf : List Nat) (hB : benignReq eng) (hAcc : eng.requestBodyAccessible = true)
    (hI : f.wasInterrupted = false) (hne : buf ≠ []) :
    (decodeData eng f prior buf false).state = f ∧
    (decodeData eng f prior buf false).calls = [EngineCall.writeRequestBody buf] := by
  obtain ⟨hOff, hW, hP⟩ := hB
  have hb : 0 < buf.length := List.length_pos.mpr hne
  by_cases h5 : f.connection.isHttp = true <;>
    simp [decodeData, hI, hOff, hAcc, hb, hW, h5]

theorem decodeData_benign_last (eng : Engine) (f : FilterState) (prior : List EngineCall)
    (buf : List Nat) (hB : benignReq eng) (hAcc : eng.requestBodyAccessible = true)
    (hI : f.wasInterrupted = false) (hne : buf ≠ []) :
    (decodeData eng f prior buf true).state = { f with wasRequestBodyProcessed := true } ∧
    (decodeData eng f prior buf true).calls =
      [EngineCall.writeRequestBody buf, EngineCall.processRequestBody] := by
  obtain ⟨hOff, hW, hP⟩ := hB
  have hb : 0 < buf.length := List.length_pos.mpr hne
  simp [decodeData, validateRequestBody, hI, hOff, hAcc, hb, hW, hP]

theorem runReqChunks_benign_exact (eng : Engine) (hB : benignReq eng)
    (hAcc : eng.requestBodyAccessible = true) :
    ∀ (rest : List (List Nat)) (c : List Nat) (f : FilterState) (prior : List EngineCall),
      f.wasInterrupted = false → c ≠ [] → (∀ x ∈ rest, x ≠ []) →
      (runReqChunks eng f prior (c :: rest)).1 = { f with wasRequestBodyProcessed := true } ∧
      (runReqChunks eng f prior (c :: rest)).2.1 =
        prior ++ (c :: rest).map (fun d => EngineCall.writeRequestBody d) ++
          [EngineCall.processRequestBody] := by
  intro rest
  induction rest with
  | nil =>
    intro c f prior hI hc hall
    have hd := decodeData_benign_last eng f prior c hB hAcc hI hc
    simp [runReqChunks, hd.1, hd.2]
  | cons c2 r2 ih =>
    intro c f prior hI hc hall
    have hd := decodeData_benign_mid eng f prior c hB hAcc hI hc
    have hr := ih c2 f (prior ++ (decodeData eng f prior c false).calls) hI
      (hall c2 (by simp)) (fun x hx => hall x (by simp [hx]))
    simp only [runReqChunks, hd.1]
    refine ⟨hr.1, ?_⟩
    rw [hr.2, hd.2]
    simp

theorem encodeData_benign_mid (eng : Engine) (f : FilterState) (prior : List EngineCall)
    (buf : List Nat) (hB : benignResp eng)
    (hTx : f.txInitialized = true) (hOff : eng.ruleEngineOff = false)
    (hWs : f.connection.isWebsocket = false)
    (hNB : f.wasResponseBodyProcessedWithNoBody = false)
    (hI : f.wasInterrupted = false) (hAcc : eng.responseBodyAccessible = true)
    (hne : buf ≠ []) :
    (encodeData eng f prior buf false).state = f ∧
    (encodeData eng f prior buf false).calls = [EngineCall.writeResponseBody buf] := by
  obtain ⟨hPH, hW, hP⟩ := hB
  have hb : 0 < buf.length := List.length_pos.mpr hne
  simp [encodeData, hTx, hOff, hWs, hNB, hI, hAcc, hb, hW]

theorem encodeData_benign_last (eng : Engine) (f : FilterState) (prior : List EngineCall)
    (buf : List Nat) (hB : benignResp eng)
    (hTx : f.txInitialized = true) (hOff : eng.ruleEngineOff = false)
    (hWs : f.connection.isWebsocket = false)
    (hNB : f.wasResponseBodyProcessedWithNoBody = false)
    (hI : f.wasInterrupted = false) (hAcc : eng.responseBodyAccessible = true)
    (hne : buf ≠ []) :
    (encodeData eng f prior buf true).state = { f with wasResponseBodyProcessed := true } ∧
    (encodeData eng f prior buf true).calls =
      [EngineCall.writeResponseBody buf, EngineCall.processResponseBody] := by
  obtain ⟨hPH, hW, hP⟩ := hB
  have hb : 0 < buf.length := List.length_pos.mpr hne
  simp [encodeData, validateResponseBody, hTx, hOff, hWs, hNB, hI, hAcc, hb, hW, hP]

theorem runRespChunks_benign_exact (eng : Engine) (hB : benignResp eng)
    (hAcc : eng.responseBodyAccessible = true) (hOff : eng.ruleEngineOff = false) :
    ∀ (rest : List (List Nat)) (c : List Nat) (f : FilterState) (prior : List EngineCall),
      f.txInitialized = true → f.connection.isWebsocket = false →
      f.wasResponseBodyProcessedWithNoBody = false → f.wasInterrupted = false →
      c ≠ [] → (∀ x ∈ rest, x ≠ []) →
      (runRespChunks eng f prior (c :: rest)).1 =
        { f with wasResponseBodyProcessed := true } ∧
      (runRespChunks eng f prior (c :: rest)).2.1 =
        prior ++ (c :: rest).map (fun d => EngineCall.writeResponseBody d) ++
          [EngineCall.processResponseBody] := by
  intro rest
  induction rest with
  | nil =>
    intro c f prior hTx hWs hNB hI hc hall
    have hd := encodeData_benign_last eng f prior c hB hTx hOff hWs hNB hI hAcc hc
    simp [runRespChunks, hd.1, hd.2]
  | cons c2 r2 ih =>
    intro c f prior hTx hWs hNB hI hc hall
    have hd := encodeData_benign_mid eng f prior c hB hTx hOff hWs hNB hI hAcc hc
    have hr := ih c2 f (prior ++ (encodeData eng f prior c false).calls) hTx hWs hNB hI
      (hall c2 (by simp)) (fun x hx => hall x (by simp [hx]))
    simp only [runRespChunks, hd.1]
    refine ⟨hr.1, ?_⟩
    rw [hr.2, hd.2]
    simp

theorem countIf_scanReq (p : EngineCall → Bool)
    (hp : ∀ k v, p (EngineCall.addRequestHeader k v) = false) (es : List (String × String)) :
    countIf p (scanRequestHeaders es).2.2 = 0 := by
  have h := countIf_map_zero p
    (fun kv : String × String => EngineCall.addRequestHeader kv.1 kv.2)
    (fun a => hp a.1 a.2) es
  simpa [scanRequestHeaders] using h

theorem countIf_scanResp (p : EngineCall → Bool) (c : ConnectionState)
    (hp : ∀ k v, p (EngineCall.addResponseHeader k v) = false) (es : List (String × String)) :
    countIf p (scanResponseHeaders c es).2.2 = 0 := by
  have h := countIf_map_zero p
    (fun kv : String × String => EngineCall.addResponseHeader kv.1 kv.2)
    (fun a => hp a.1 a.2) es
  simpa [scanResponseHeaders] using h

theorem countIf_mapWriteReq (p : EngineCall → Bool)
    (hp : ∀ d, p (EngineCall.writeRequestBody d) = false) (l : List (List Nat)) :
    countIf p (l.map (fun d => EngineCall.writeRequestBody d)) = 0 :=
  countIf_map_zero p (fun d => EngineCall.writeRequestBody d) hp l

theorem countIf_mapWriteResp (p : EngineCall → Bool)
    (hp : ∀ d, p (EngineCall.writeResponseBody d) = false) (l : List (List Nat)) :
    countIf p (l.map (fun d => EngineCall.writeResponseBody d)) = 0 :=
  countIf_map_zero p (fun d => EngineCall.writeResponseBody d) hp l

theorem scanReqCounts (es : List (String × String)) :
    countIf isProcReqHeaders (scanRequestHeaders es).2.2 = 0 ∧
    countIf isProcReqBody (scanRequestHeaders es).2.2 = 0 ∧
    countIf isProcRespHeaders (scanRequestHeaders es).2.2 = 0 ∧
    countIf isProcRespBody (scanRequestHeaders es).2.2 = 0 :=
  ⟨countIf_scanReq _ (fun _ _ => rfl) es, countIf_scanReq _ (fun _ _ => rfl) es,
    countIf_scanReq _ (fun _ _ => rfl) es, countIf_scanReq _ (fun _ _ => rfl) es⟩

theorem scanRespCounts (c : ConnectionState) (es : List (String × String)) :
    countIf isProcReqHeaders (scanResponseHeaders c es).2.2 = 0 ∧
    countIf isProcReqBody (scanResponseHeaders c es).2.2 = 0 ∧
    countIf isProcRespHeaders (scanResponseHeaders c es).2.2 = 0 ∧
    countIf isProcRespBody (scanResponseHeaders c es).2.2 = 0 :=
  ⟨countIf_scanResp _ c (fun _ _ => rfl) es, countIf_scanResp _ c (fun _ _ => rfl) es,
    countIf_scanResp _ c (fun _ _ => rfl) es, countIf_scanResp _ c (fun _ _ => rfl) es⟩

theorem mapWriteReqCounts (l : List (List Nat)) :
    countIf isProcReqHeaders (l.map (fun d => EngineCall.writeRequestBody d)) = 0 ∧
    countIf isProcReqBody (l.map (fun d => EngineCall.writeRequestBody d)) = 0 ∧
    countIf isProcRespHeaders (l.map (fun d => EngineCall.writeRequestBody d)) = 0 ∧
    countIf isProcRespBody (l.map (fun d => EngineCall.writeRequestBody d)) = 0 :=
  ⟨countIf_mapWriteReq _ (fun _ => rfl) l, countIf_mapWriteReq _ (fun _ => rfl) l,
    countIf_mapWriteReq _ (fun _ => rfl) l, countIf_mapWriteReq _ (fun _ => rfl) l⟩

theorem mapWriteRespCounts (l : List (List Nat)) :
    countIf isProcReqHeaders (l.map (fun d => EngineCall.writeResponseBody d)) = 0 ∧
    countIf isProcReqBody (l.map (fun d => EngineCall.writeResponseBody d)) = 0 ∧
    countIf isProcRespHeaders (l.map (fun d => EngineCall.writeResponseBody d)) = 0 ∧
    countIf isProcRespBody (l.map (fun d => EngineCall.writeResponseBody d)) = 0 :=
  ⟨countIf_mapWriteResp _ (fun _ => rfl) l, countIf_mapWriteResp _ (fun _ => rfl) l,
    countIf_mapWriteResp _ (fun _ => rfl) l, countIf_mapWriteResp _ (fun _ => rfl) l⟩

/-- C1 as amended: on a plain-HTTP exchange (no websocket upgrade header) with
a benign engine, both body accesses enabled, and each body delivered in
nonempty chunk events with end-of-stream on the last chunk, each of
ProcessRequestHeaders, ProcessRequestBody, ProcessResponseHeaders and
ProcessResponseBody is invoked exactly once over the whole exchange,
regardless of how many chunks each body was split into. -/
theorem c1_amended (eng : Engine) (ex : Exchange)
    (hBq : benignReq eng) (hBr : benignResp eng)
    (hReqAcc : eng.requestBodyAccessible = true)
    (hRespAcc : eng.responseBodyAccessible = true)
    (hPRH : eng.onProcessRequestHeaders = none)
    (rip rps lip lps : String) (rport lport : Int) (proto : String)
    (hh : (ex.reqHeaders.host.length == 0) = false)
    (hc : containsSub ex.reqHeaders.host (":") = false)
    (hR : goSplitHostPort ex.info.downstreamRemoteAddress = some (rip, rps))
    (hRp : goAtoi rps = some rport)
    (hL : goSplitHostPort ex.info.downstreamLocalAddress = some (lip, lps))
    (hLp : goAtoi lps = some lport)
    (hProto : ex.info.protocol = some proto)
    (hUp : (scanRequestHeaders ex.reqHeaders.entries).1 = false)
    (hReqNe : ex.reqChunks ≠ []) (hReqAll : ∀ c ∈ ex.reqChunks, c ≠ [])
    (hRespNe : ex.respChunks ≠ []) (hRespAll : ∀ c ∈ ex.respChunks, c ≠ []) :
    countIf isProcReqHeaders (runExchange eng ex).trace = 1 ∧
    countIf isProcReqBody (runExchange eng ex).trace = 1 ∧
    countIf isProcRespHeaders (runExchange eng ex).trace = 1 ∧
    countIf isProcRespBody (runExchange eng ex).trace = 1 := by
  obtain ⟨c, rest, hx⟩ : ∃ c rest, ex.reqChunks = c :: rest := by
    cases hxx : ex.reqChunks with
    | nil => exact absurd hxx hReqNe
    | cons a b => exact ⟨a, b, rfl⟩
  obtain ⟨c2, rest2, hy⟩ : ∃ c2 rest2, ex.respChunks = c2 :: rest2 := by
    cases hyy : ex.respChunks with
    | nil => exact absurd hyy hRespNe
    | cons a b => exact ⟨a, b, rfl⟩
  rw [hx] at hReqAll
  rw [hy] at hRespAll
  have hdh := decodeHeaders_ok eng [] ex.reqHeaders ex.info false rip rps lip lps rport lport
    proto hh hc hBq.1 hR hRp hL hLp hProto hPRH hBq.2.2
  simp only [hUp, Bool.false_and, if_false, Bool.false_eq_true] at hdh
  have hrr := runReqChunks_benign_exact eng hBq hReqAcc rest c
    { txInitialized := true
      wasInterrupted := false
      wasRequestBodyProcessed := false
      wasResponseBodyProcessed := false
      wasResponseBodyProcessedWithNoBody := false
      httpProtocol := proto
      connection := ConnectionState.http }
    (decodeHeaders eng initialFilterState [] ex.reqHeaders ex.info false).calls rfl
    (hReqAll c (by simp)) (fun x hxm => hReqAll x (by simp [hxm]))
  have hsf := scanResp_flags_off ConnectionState.http ex.respHeaders rfl
  have heh := encodeHeaders_ok_noEnd eng
    { txInitialized := true
      wasInterrupted := false
      wasRequestBodyProcessed := true
      wasResponseBodyProcessed := false
      wasResponseBodyProcessedWithNoBody := false
      httpProtocol := proto
      connection := ConnectionState.http }
    ((runReqChunks eng
      { txInitialized := true
        wasInterrupted := false
        wasRequestBodyProcessed := false
        wasResponseBodyProcessed := false
        wasResponseBodyProcessedWithNoBody := false
        httpProtocol := proto
        connection := ConnectionState.http }
      (decodeHeaders eng initialFilterState [] ex.reqHeaders ex.info false).calls
      (c :: rest)).2.1)
    ex.respHeaders ex.info rfl rfl hBq.1 hBq.2.2 hBr.1
  simp only [hsf.1, hsf.2, Bool.false_and, if_false, Bool.false_eq_true] at heh
  have hresp := runRespChunks_benign_exact eng hBr hRespAcc hBq.1 rest2 c2
    { txInitialized := true
      wasInterrupted := false
      wasRequestBodyProcessed := true
      wasResponseBodyProcessed := false
      wasResponseBodyProcessedWithNoBody := false
      httpProtocol := proto
      connection := ConnectionState.http }
    ((runReqChunks eng
      { txInitialized := true
        wasInterrupted := false
        wasRequestBodyProcessed := false
        wasResponseBodyProcessed := false
        wasResponseBodyProcessedWithNoBody := false
        httpProtocol := proto
        connection := ConnectionState.http }
      (decodeHeaders eng initialFilterState [] ex.reqHeaders ex.info false).calls
      (c :: rest)).2.1 ++
      (encodeHeaders eng
        { txInitialized := true
          wasInterrupted := false
          wasRequestBodyProcessed := true
          wasResponseBodyProcessed := false
          wasResponseBodyProcessedWithNoBody := false
          httpProtocol := proto
          connection := ConnectionState.http }
        ((runReqChunks eng
          { txInitialized := true
            wasInterrupted := false
            wasRequestBodyProcessed := false
            wasResponseBodyProcessed := false
            wasResponseBodyProcessedWithNoBody := false
            httpProtocol := proto
            connection := ConnectionState.http }
          (decodeHeaders eng initialFilterState [] ex.reqHeaders ex.info false).calls
          (c :: rest)).2.1)
        ex.respHeaders ex.info false).calls)
    rfl rfl rfl rfl (hRespAll c2 (by simp)) (fun x hxm => hRespAll x (by simp [hxm]))
  have htrace : (runExchange eng ex).trace =
      (decodeHeaders eng initialFilterState [] ex.reqHeaders ex.info false).calls ++
        (c :: rest).map (fun d => EngineCall.writeRequestBody d) ++
        [EngineCall.processRequestBody] ++
        ((encodeHeaders eng
          { txInitialized := true
            wasInterrupted := false
            wasRequestBodyProcessed := true
            wasResponseBodyProcessed := false
            wasResponseBodyProcessedWithNoBody := false
            httpProtocol := proto
            connection := ConnectionState.http }
          ((runReqChunks eng
            { txInitialized := true
              wasInterrupted := false
              wasRequestBodyProcessed := false
              wasResponseBodyProcessed := false
              wasResponseBodyProcessedWithNoBody := false
              httpProtocol := proto
              connection := ConnectionState.http }
            (decodeHeaders eng initialFilterState [] ex.reqHeaders ex.info false).calls
            (c :: rest)).2.1)
          ex.respHeaders ex.info false).calls) ++
        (c2 :: rest2).map (fun d => EngineCall.writeResponseBody d) ++
        [EngineCall.processResponseBody] ++
        [EngineCall.processLogging, EngineCall.close] := by
    simp only [runExchange, hx, hy, List.isEmpty_cons]
    rw [hdh.1]
    rw [hrr.1]
    rw [heh.1]
    rw [hresp.1, hresp.2]
    rw [onDestroy_skip eng _ _ rfl rfl]
    rw [hrr.2]
  have zq := scanReqCounts ex.reqHeaders.entries
  have zr := scanRespCounts ConnectionState.http ex.respHeaders
  have zw := mapWriteReqCounts rest
  have zs := mapWriteRespCounts rest2
  have zq1 : (List.filter isProcReqHeaders (scanRequestHeaders ex.reqHeaders.entries).2.2).length = 0 := zq.1
  have zq2 : (List.filter isProcReqBody (scanRequestHeaders ex.reqHeaders.entries).2.2).length = 0 := zq.2.1
  have zq3 : (List.filter isProcRespHeaders (scanRequestHeaders ex.reqHeaders.entries).2.2).length = 0 := zq.2.2.1
  have zq4 : (List.filter isProcRespBody (scanRequestHeaders ex.reqHeaders.entries).2.2).length = 0 := zq.2.2.2
  have zr1 : (List.filter isProcReqHeaders (scanResponseHeaders ConnectionState.http ex.respHeaders).2.2).length = 0 := zr.1
  have zr2 : (List.filter isProcReqBody (scanResponseHeaders ConnectionState.http ex.respHeaders).2.2).length = 0 := zr.2.1
  have zr3 : (List.filter isProcRespHeaders (scanResponseHeaders ConnectionState.http ex.respHeaders).2.2).length = 0 := zr.2.2.1
  have zr4 : (List.filter isProcRespBody (scanResponseHeaders ConnectionState.http ex.respHeaders).2.2).length = 0 := zr.2.2.2
  have zw1 : (List.filter isProcReqHeaders (List.map (fun d => EngineCall.writeRequestBody d) rest)).length = 0 := zw.1
  have zw2 : (List.filter isProcReqBody (List.map (fun d => EngineCall.writeRequestBody d) rest)).length = 0 := zw.2.1
  have zw3 : (List.filter isProcRespHeaders (List.map (fun d => EngineCall.writeRequestBody d) rest)).length = 0 := zw.2.2.1
  have zw4 : (List.filter isProcRespBody (List.map (fun d => EngineCall.writeRequestBody d) rest)).length = 0 := zw.2.2.2
  have zs1 : (List.filter isProcReqHeaders (List.map (fun d => EngineCall.writeResponseBody d) rest2)).length = 0 := zs.1
  have zs2 : (List.filter isProcReqBody (List.map (fun d => EngineCall.writeResponseBody d) rest2)).length = 0 := zs.2.1
  have zs3 : (List.filter isProcRespHeaders (List.map (fun d => EngineCall.writeResponseBody d) rest2)).length = 0 := zs.2.2.1
  have zs4 : (List.filter isProcRespBody (List.map (fun d => EngineCall.writeResponseBody d) rest2)).length = 0 := zs.2.2.2
  refine ⟨?_, ?_, ?_, ?_⟩ <;>
  · rw [htrace, heh.2.1]
    simp [hdh.2.1, countIf, List.filter_append, zq1, zq2, zq3, zq4, zr1, zr2, zr3, zr4,
      zw1, zw2, zw3, zw4, zs1, zs2, zs3, zs4,
      isProcReqHeaders, isProcReqBody, isProcRespHeaders, isProcRespBody]

/-- Witness for C1 at the chunked exchange and the benign engine. -/
theorem c1_witness :
    countIf isProcReqHeaders (runExchange engBenign exChunked).trace = 1 ∧
    countIf isProcReqBody (runExchange engBenign exChunked).trace = 1 ∧
    countIf isProcRespHeaders (runExchange engBenign exChunked).trace = 1 ∧
    countIf isProcRespBody (runExchange engBenign exChunked).trace = 1 :=
  c1_amended engBenign exChunked ⟨rfl, fun _ _ => rfl, fun _ => rfl⟩
    ⟨rfl, fun _ _ => rfl, fun _ => rfl⟩ rfl rfl rfl
    ("10.0.0.1") ("34000") ("10.0.0.2") ("80") 34000 80 ("HTTP/1.1")
    (by decide) (by decide) (by decide) (by decide) (by decide) (by decide) rfl (by decide)
    (by decide) (by decide) (by decide) (by decide)

/-- C7 as amended: when the websocket upgrade pair appears on both the request
and the response headers (promoting the connection to established websocket),
no response-body chunk event makes any engine call even though response bytes
arrive, and the teardown handler still makes exactly one detection-only
ProcessResponseBody call in its finalize-and-log sequence. -/
theorem c7_amended (eng : Engine) (ex : Exchange)
    (hBq : benignReq eng) (hPRH : eng.onProcessRequestHeaders = none)
    (hPRespH : eng.onProcessResponseHeaders = none)
    (rip rps lip lps : String) (rport lport : Int) (proto : String)
    (hh : (ex.reqHeaders.host.length == 0) = false)
    (hc : containsSub ex.reqHeaders.host (":") = false)
    (hR : goSplitHostPort ex.info.downstreamRemoteAddress = some (rip, rps))
    (hRp : goAtoi rps = some rport)
    (hL : goSplitHostPort ex.info.downstreamLocalAddress = some (lip, lps))
    (hLp : goAtoi lps = some lport)
    (hProto : ex.info.protocol = some proto)
    (hUp1 : (scanRequestHeaders ex.reqHeaders.entries).1 = true)
    (hUp2 : (scanRequestHeaders ex.reqHeaders.entries).2.1 = true)
    (hRe1 : (scanResponseHeaders ConnectionState.upgradeWebsocketRequested ex.respHeaders).1
      = true)
    (hRe2 : (scanResponseHeaders ConnectionState.upgradeWebsocketRequested ex.respHeaders).2.1
      = true)
    (hRespNe : ex.respChunks ≠ []) :
    (runExchange eng ex).eh.state.connection = ConnectionState.websocketConnection ∧
    (∀ r ∈ (runExchange eng ex).respSteps,
      r.status = StatusType.cont ∧ r.calls = [] ∧ r.replies = []) ∧
    (runExchange eng ex).destroy.calls =
      [EngineCall.processResponseBody, EngineCall.processLogging, EngineCall.close] := by
  obtain ⟨c2, rest2, hy⟩ : ∃ c2 rest2, ex.respChunks = c2 :: rest2 := by
    cases hyy : ex.respChunks with
    | nil => exact absurd hyy hRespNe
    | cons a b => exact ⟨a, b, rfl⟩
  have hdh := decodeHeaders_ok eng [] ex.reqHeaders ex.info ex.reqChunks.isEmpty rip rps lip
    lps rport lport proto hh hc hBq.1 hR hRp hL hLp hProto hPRH hBq.2.2
  simp only [hUp1, hUp2, Bool.and_self, if_true] at hdh
  have hf := runReqChunks_fields eng hBq
    (decodeHeaders eng initialFilterState [] ex.reqHeaders ex.info ex.reqChunks.isEmpty).state
    (decodeHeaders eng initialFilterState [] ex.reqHeaders ex.info ex.reqChunks.isEmpty).calls
    ex.reqChunks
  have hf1 : (runReqChunks eng
      (decodeHeaders eng initialFilterState [] ex.reqHeaders ex.info ex.reqChunks.isEmpty).state
      (decodeHeaders eng initialFilterState [] ex.reqHeaders ex.info ex.reqChunks.isEmpty).calls
      ex.reqChunks).1.wasInterrupted = false := by rw [hf.1, hdh.1]
  have hf2 : (runReqChunks eng
      (decodeHeaders eng initialFilterState [] ex.reqHeaders ex.info ex.reqChunks.isEmpty).state
      (decodeHeaders eng initialFilterState [] ex.reqHeaders ex.info ex.reqChunks.isEmpty).calls
      ex.reqChunks).1.connection = ConnectionState.upgradeWebsocketRequested := by
    rw [hf.2.1, hdh.1]
  have hf3 : (runReqChunks eng
      (decodeHeaders eng initialFilterState [] ex.reqHeaders ex.info ex.reqChunks.isEmpty).state
      (decodeHeaders eng initialFilterState [] ex.reqHeaders ex.info ex.reqChunks.isEmpty).calls
      ex.reqChunks).1.txInitialized = true := by rw [hf.2.2.1, hdh.1]
  have hf4 : (runReqChunks eng
      (decodeHeaders eng initialFilterState [] ex.reqHeaders ex.info ex.reqChunks.isEmpty).state
      (decodeHeaders eng initialFilterState [] ex.reqHeaders ex.info ex.reqChunks.isEmpty).calls
      ex.reqChunks).1.wasResponseBodyProcessed = false := by rw [hf.2.2.2.1, hdh.1]
  have heh := encodeHeaders_ok_noEnd eng
    (runReqChunks eng
      (decodeHeaders eng initialFilterState [] ex.reqHeaders ex.info ex.reqChunks.isEmpty).state
      (decodeHeaders eng initialFilterState [] ex.reqHeaders ex.info ex.reqChunks.isEmpty).calls
      ex.reqChunks).1
    ((runReqChunks eng
      (decodeHeaders eng initialFilterState [] ex.reqHeaders ex.info ex.reqChunks.isEmpty).state
      (decodeHeaders eng initialFilterState [] ex.reqHeaders ex.info ex.reqChunks.isEmpty).calls
      ex.reqChunks).2.1)
    ex.respHeaders ex.info hf1 hf3 hBq.1 hBq.2.2 hPRespH
  rw [hf2] at heh
  simp only [hRe1, hRe2, Bool.and_self, if_true] at heh
  simp only [runExchange, hy, List.isEmpty_cons]
  rw [heh.1]
  have hguard := runRespChunks_guard eng
    { (runReqChunks eng
        (decodeHeaders eng initialFilterState [] ex.reqHeaders ex.info ex.reqChunks.isEmpty).state
        (decodeHeaders eng initialFilterState [] ex.reqHeaders ex.info ex.reqChunks.isEmpty).calls
        ex.reqChunks).1 with
      wasRequestBodyProcessed := true
      connection := ConnectionState.websocketConnection }
    (by simp [ConnectionState.isWebsocket])
  rw [hguard]
  refine ⟨rfl, ?_, ?_⟩
  · intro r hr
    simp only [List.mem_map] at hr
    obtain ⟨d, _, hd2⟩ := hr
    subst hd2
    simp
  · exact onDestroy_calls eng _ _ (by simp [hf3]) (by simp [hf4])

/-- Witness for C7 at the concrete websocket exchange. -/
theorem c7_witness :
    (runExchange engBenign exWebsocket).eh.state.connection =
      ConnectionState.websocketConnection ∧
    (∀ r ∈ (runExchange engBenign exWebsocket).respSteps,
      r.status = StatusType.cont ∧ r.calls = [] ∧ r.replies = []) ∧
    (runExchange engBenign exWebsocket).destroy.calls =
      [EngineCall.processResponseBody, EngineCall.processLogging, EngineCall.close] :=
  c7_amended engBenign exWebsocket ⟨rfl, fun _ _ => rfl, fun _ => rfl⟩ rfl rfl
    ("10.0.0.1") ("34000") ("10.0.0.2") ("80") 34000 80 ("HTTP/1.1")
    (by decide) (by decide) (by decide) (by decide) (by decide) (by decide) rfl
    (by decide) (by decide) (by decide) (by decide) (by decide)

theorem encodeData_noAccess_first (eng : Engine) (f : FilterState) (prior : List EngineCall)
    (buf : List Nat) (endStream : Bool)
    (hTx : f.txInitialized = true) (hOff : eng.ruleEngineOff = false)
    (hWs : f.connection.isWebsocket = false)
    (hNB : f.wasResponseBodyProcessedWithNoBody = false)
    (hI : f.wasInterrupted = false) (hAcc : eng.responseBodyAccessible = false) :
    (encodeData eng f prior buf endStream).calls = [EngineCall.processResponseBody] ∧
    (encodeData eng f prior buf endStream).state.wasResponseBodyProcessedWithNoBody = true ∧
    (encodeData eng f prior buf endStream).state.wasResponseBodyProcessed = true ∧
    (encodeData eng f prior buf endStream).state.txInitialized = true ∧
    (encodeData eng f prior buf endStream).state.connection = f.connection ∧
    (encodeData eng f prior buf endStream).buffer = buf := by
  rcases h2 : eng.onProcessResponseBody (countIf isProcRespBody prior) with ⟨oi, e⟩
  cases e
  · cases oi <;>
      simp [encodeData, validateResponseBody, handleInterruption, hTx, hOff, hWs, hNB, hI,
        hAcc, h2]
  · simp [encodeData, validateResponseBody, hTx, hOff, hWs, hNB, hI, hAcc, h2]

/-- The whole response phase of an exchange whose rule set has response-body
access disabled and at least one response-body chunk event: the first chunk
finalizes through the no-body path, later chunks pass through untouched, and
teardown only logs and closes. -/
theorem encodeRespPhase_noAccess (eng : Engine) (f : FilterState) (prior : List EngineCall)
    (entries : List (String × String)) (info : StreamInfo) (c2 : List Nat)
    (rest2 : List (List Nat))
    (hBq : benignReq eng) (hPRespH : eng.onProcessResponseHeaders = none)
    (hAcc : eng.responseBodyAccessible = false)
    (hI : f.wasInterrupted = false) (hTx : f.txInitialized = true)
    (hConn : f.connection = ConnectionState.http)
    (hRP : f.wasResponseBodyProcessed = false)
    (hNB : f.wasResponseBodyProcessedWithNoBody = false) :
    (runRespChunks eng (encodeHeaders eng f prior entries info false).state
        (prior ++ (encodeHeaders eng f prior entries info false).calls)
        (c2 :: rest2)).2.2.map (fun r => r.calls) =
      [EngineCall.processResponseBody] :: rest2.map (fun _ => []) ∧
    (runRespChunks eng (encodeHeaders eng f prior entries info false).state
        (prior ++ (encodeHeaders eng f prior entries info false).calls)
        (c2 :: rest2)).2.2.map (fun r => r.buffer) = c2 :: rest2 ∧
    (∀ r ∈ (runRespChunks eng (encodeHeaders eng f prior entries info false).state
        (prior ++ (encodeHeaders eng f prior entries info false).calls)
        (c2 :: rest2)).2.2.tail, r.status = StatusType.cont ∧ r.replies = []) ∧
    (onDestroy eng
      (runRespChunks eng (encodeHeaders eng f prior entries info false).state
        (prior ++ (encodeHeaders eng f prior entries info false).calls) (c2 :: rest2)).1
      (runRespChunks eng (encodeHeaders eng f prior entries info false).state
        (prior ++ (encodeHeaders eng f prior entries info false).calls)
        (c2 :: rest2)).2.1).calls = [EngineCall.processLogging, EngineCall.close] ∧
    (runRespChunks eng (encodeHeaders eng f prior entries info false).state
        (prior ++ (encodeHeaders eng f prior entries info false).calls) (c2 :: rest2)).2.1 =
      (prior ++ (encodeHeaders eng f prior entries info false).calls) ++
        [EngineCall.processResponseBody] ∧
    countIf isProcRespBody (encodeHeaders eng f prior entries info false).calls = 0 ∧
    countIf isWriteRespBody (encodeHeaders eng f prior entries info false).calls = 0 := by
  have heh := encodeHeaders_ok_noEnd eng f prior entries info hI hTx hBq.1 hBq.2.2 hPRespH
  rw [hConn] at heh
  have hsf := scanResp_flags_off ConnectionState.http entries rfl
  simp only [hsf.1, hsf.2, Bool.false_and, if_false, Bool.false_eq_true] at heh
  have hcalls : countIf isProcRespBody (encodeHeaders eng f prior entries info false).calls
      = 0 ∧ countIf isWriteRespBody (encodeHeaders eng f prior entries info false).calls
      = 0 := by
    have za : (List.filter isProcRespBody
        (scanResponseHeaders ConnectionState.http entries).2.2).length = 0 :=
      countIf_scanResp isProcRespBody ConnectionState.http (fun _ _ => rfl) entries
    have zb : (List.filter isWriteRespBody
        (scanResponseHeaders ConnectionState.http entries).2.2).length = 0 :=
      countIf_scanResp isWriteRespBody ConnectionState.http (fun _ _ => rfl) entries
    rw [heh.2.1]
    constructor <;>
    · cases hb : f.wasRequestBodyProcessed <;>
        simp [hb, countIf, List.filter_append, za, zb, isProcRespBody, isWriteRespBody]
  rw [heh.1]
  cases rest2 with
  | nil =>
    have hfirst := encodeData_noAccess_first eng
      { f with
        wasRequestBodyProcessed := true
        connection := ConnectionState.http }
      (prior ++ (encodeHeaders eng f prior entries info false).calls) c2 true
      (by simp [hTx]) hBq.1 rfl (by simp [hNB]) (by simp [hI]) hAcc
    simp only [runRespChunks]
    refine ⟨?_, ?_, ?_, ?_, ?_, hcalls.1, hcalls.2⟩
    · simp [hfirst.1]
    · simp [hfirst.2.2.2.2.2]
    · intro r hr
      simp at hr
    · exact onDestroy_skip eng _ _ hfirst.2.2.2.1 hfirst.2.2.1
    · simp [hfirst.1]
  | cons c3 r3 =>
    have hfirst := encodeData_noAccess_first eng
      { f with
        wasRequestBodyProcessed := true
        connection := ConnectionState.http }
      (prior ++ (encodeHeaders eng f prior entries info false).calls) c2 false
      (by simp [hTx]) hBq.1 rfl (by simp [hNB]) (by simp [hI]) hAcc
    have hguard := runRespChunks_guard eng
      (encodeData eng
        { f with
          wasRequestBodyProcessed := true
          connection := ConnectionState.http }
        (prior ++ (encodeHeaders eng f prior entries info false).calls) c2 false).state
      (by simp [hfirst.2.1])
      ((prior ++ (encodeHeaders eng f prior entries info false).calls) ++
        (encodeData eng
          { f with
            wasRequestBodyProcessed := true
            connection := ConnectionState.http }
          (prior ++ (encodeHeaders eng f prior entries info false).calls) c2 false).calls)
      (c3 :: r3)
    simp only [runRespChunks, hguard]
    refine ⟨?_, ?_, ?_, ?_, ?_, hcalls.1, hcalls.2⟩
    · simp [hfirst.1, Function.comp_def]
    · simp [hfirst.2.2.2.2.2, Function.comp_def]
    · intro r hr
      simp only [List.tail_cons, List.mem_map] at hr
      obtain ⟨d, _, hd2⟩ := hr
      subst hd2
      simp
    · exact onDestroy_skip eng _ _ hfirst.2.2.2.1 hfirst.2.2.1
    · simp [hfirst.1]

/-- C9 as amended: on an exchange with response-body access disabled in which
at least one response-body chunk event arrives, ProcessResponseBody is invoked
exactly once over the whole exchange, by the no-body path of the first chunk
event; no WriteResponseBody ever happens; every later chunk event returns
Continue with no engine call, no reply and an unmodified buffer; and teardown
only logs and closes. -/
theorem c9_amended (eng : Engine) (ex : Exchange)
    (hBq : benignReq eng) (hPRH : eng.onProcessRequestHeaders = none)
    (hPRespH : eng.onProcessResponseHeaders = none)
    (hAcc : eng.responseBodyAccessible = false)
    (rip rps lip lps : String) (rport lport : Int) (proto : String)
    (hh : (ex.reqHeaders.host.length == 0) = false)
    (hc : containsSub ex.reqHeaders.host (":") = false)
    (hR : goSplitHostPort ex.info.downstreamRemoteAddress = some (rip, rps))
    (hRp : goAtoi rps = some rport)
    (hL : goSplitHostPort ex.info.downstreamLocalAddress = some (lip, lps))
    (hLp : goAtoi lps = some lport)
    (hProto : ex.info.protocol = some proto)
    (hUp : (scanRequestHeaders ex.reqHeaders.entries).1 = false)
    (hRespNe : ex.respChunks ≠ []) :
    countIf isProcRespBody (runExchange eng ex).trace = 1 ∧
    countIf isWriteRespBody (runExchange eng ex).trace = 0 ∧
    (runExchange eng ex).respSteps.map (fun r => r.calls) =
      [EngineCall.processResponseBody] :: ex.respChunks.tail.map (fun _ => []) ∧
    (runExchange eng ex).respSteps.map (fun r => r.buffer) = ex.respChunks ∧
    (∀ r ∈ (runExchange eng ex).respSteps.tail,
      r.status = StatusType.cont ∧ r.replies = []) ∧
    (runExchange eng ex).destroy.calls =
      [EngineCall.processLogging, EngineCall.close] := by
  obtain ⟨c2, rest2, hy⟩ : ∃ c2 rest2, ex.respChunks = c2 :: rest2 := by
    cases hyy : ex.respChunks with
    | nil => exact absurd hyy hRespNe
    | cons a b => exact ⟨a, b, rfl⟩
  have hdh := decodeHeaders_ok eng [] ex.reqHeaders ex.info ex.reqChunks.isEmpty rip rps lip
    lps rport lport proto hh hc hBq.1 hR hRp hL hLp hProto hPRH hBq.2.2
  simp only [hUp, Bool.false_and, if_false, Bool.false_eq_true] at hdh
  have hf := runReqChunks_fields eng hBq
    (decodeHeaders eng initialFilterState [] ex.reqHeaders ex.info ex.reqChunks.isEmpty).state
    (decodeHeaders eng initialFilterState [] ex.reqHeaders ex.info ex.reqChunks.isEmpty).calls
    ex.reqChunks
  have hf1 : (runReqChunks eng
      (decodeHeaders eng initialFilterState [] ex.reqHeaders ex.info ex.reqChunks.isEmpty).state
      (decodeHeaders eng initialFilterState [] ex.reqHeaders ex.info ex.reqChunks.isEmpty).calls
      ex.reqChunks).1.wasInterrupted = false := by rw [hf.1, hdh.1]
  have hf2 : (runReqChunks eng
      (decodeHeaders eng initialFilterState [] ex.reqHeaders ex.info ex.reqChunks.isEmpty).state
      (decodeHeaders eng initialFilterState [] ex.reqHeaders ex.info ex.reqChunks.isEmpty).calls
      ex.reqChunks).1.connection = ConnectionState.http := by rw [hf.2.1, hdh.1]
  have hf3 : (runReqChunks eng
      (decodeHeaders eng initialFilterState [] ex.reqHeaders ex.info ex.reqChunks.isEmpty).state
      (decodeHeaders eng initialFilterState [] ex.reqHeaders ex.info ex.reqChunks.isEmpty).calls
      ex.reqChunks).1.txInitialized = true := by rw [hf.2.2.1, hdh.1]
  have hf4 : (runReqChunks eng
      (decodeHeaders eng initialFilterState [] ex.reqHeaders ex.info ex.reqChunks.isEmpty).state
      (decodeHeaders eng initialFilterState [] ex.reqHeaders ex.info ex.reqChunks.isEmpty).calls
      ex.reqChunks).1.wasResponseBodyProcessed = false := by rw [hf.2.2.2.1, hdh.1]
  have hf5 : (runReqChunks eng
      (decodeHeaders eng initialFilterState [] ex.reqHeaders ex.info ex.reqChunks.isEmpty).state
      (decodeHeaders eng initialFilterState [] ex.reqHeaders ex.info ex.reqChunks.isEmpty).calls
      ex.reqChunks).1.wasResponseBodyProcessedWithNoBody = false := by rw [hf.2.2.2.2.1, hdh.1]
  have hcore := encodeRespPhase_noAccess eng
    (runReqChunks eng
      (decodeHeaders eng initialFilterState [] ex.reqHeaders ex.info ex.reqChunks.isEmpty).state
      (decodeHeaders eng initialFilterState [] ex.reqHeaders ex.info ex.reqChunks.isEmpty).calls
      ex.reqChunks).1
    ((runReqChunks eng
      (decodeHeaders eng initialFilterState [] ex.reqHeaders ex.info ex.reqChunks.isEmpty).state
      (decodeHeaders eng initialFilterState [] ex.reqHeaders ex.info ex.reqChunks.isEmpty).calls
      ex.reqChunks).2.1)
    ex.respHeaders ex.info c2 rest2 hBq hPRespH hAcc hf1 hf3 hf2 hf4 hf5
  have hdc : countIf isProcRespBody
      (decodeHeaders eng initialFilterState [] ex.reqHeaders ex.info
        ex.reqChunks.isEmpty).calls = 0 ∧
      countIf isWriteRespBody
      (decodeHeaders eng initialFilterState [] ex.reqHeaders ex.info
        ex.reqChunks.isEmpty).calls = 0 := by
    have za : (List.filter isProcRespBody
        (scanRequestHeaders ex.reqHeaders.entries).2.2).length = 0 :=
      countIf_scanReq isProcRespBody (fun _ _ => rfl) ex.reqHeaders.entries
    have zb : (List.filter isWriteRespBody
        (scanRequestHeaders ex.reqHeaders.entries).2.2).length = 0 :=
      countIf_scanReq isWriteRespBody (fun _ _ => rfl) ex.reqHeaders.entries
    rw [hdh.2.1]
    constructor <;>
    · cases hxe : ex.reqChunks.isEmpty <;>
        simp [hxe, countIf, List.filter_append, za, zb, isProcRespBody, isWriteRespBody]
  simp only [runExchange, hy, List.isEmpty_cons]
  refine ⟨?_, ?_, hcore.1, hcore.2.1, hcore.2.2.1, hcore.2.2.2.1⟩
  · rw [hcore.2.2.2.1, hcore.2.2.2.2.1]
    simp only [countIf_append]
    rw [hf.2.2.2.2.2.2.1, hdc.1, hcore.2.2.2.2.2.1]
    simp [countIf, isProcRespBody]
  · rw [hcore.2.2.2.1, hcore.2.2.2.2.1]
    simp only [countIf_append]
    rw [hf.2.2.2.2.2.2.2.1, hdc.2, hcore.2.2.2.2.2.2]
    simp [countIf, isWriteRespBody]

/-- Witness for C9 at a concrete two-chunk response with access disabled. -/
theorem c9_witness :
    countIf isProcRespBody (runExchange engRespAccOff exTwoRespChunks).trace = 1 ∧
    countIf isWriteRespBody (runExchange engRespAccOff exTwoRespChunks).trace = 0 ∧
    (runExchange engRespAccOff exTwoRespChunks).respSteps.map (fun r => r.calls) =
      [EngineCall.processResponseBody] ::
        exTwoRespChunks.respChunks.tail.map (fun _ => []) ∧
    (runExchange engRespAccOff exTwoRespChunks).respSteps.map (fun r => r.buffer) =
      exTwoRespChunks.respChunks ∧
    (∀ r ∈ (runExchange engRespAccOff exTwoRespChunks).respSteps.tail,
      r.status = StatusType.cont ∧ r.replies = []) ∧
    (runExchange engRespAccOff exTwoRespChunks).destroy.calls =
      [EngineCall.processLogging, EngineCall.close] :=
  c9_amended engRespAccOff exTwoRespChunks ⟨rfl, fun _ _ => rfl, fun _ => rfl⟩ rfl rfl rfl
    ("10.0.0.1") ("34000") ("10.0.0.2") ("80") 34000 80 ("HTTP/1.1")
    (by decide) (by decide) (by decide) (by decide) (by decide) (by decide) rfl
    (by decide) (by decide)
